import Mathlib

/-!
# Two-species Game of Life (`proj1.cpp`)

A shallow embedding of the simulation core of `proj1.cpp`:

* the grid `int grid[RMAX][CMAX]` is a function `Fin RMAX → Fin CMAX → Int`;
* the look-up tables `int birth[9]`, `int survival[9]` are functions `Fin 9 → Int`;
* every array access whose index is computed at run time (`grid[r][c]` in the
  neighbour scan, `reqs[requirements[i] - '0']` in the rule decoder) is
  bounds-checked and returns `none` when the index leaves the array;
* `for` loops are folds (`forEach`) over the list of values the loop variable takes,
  the loop state being passed explicitly.

C `int` values are modelled by `Int`: every count in the program is at most 8, so no
arithmetic of the core can overflow for indices inside the grid. The one counter that can
reach the end of the `int` range is `iteration` in `main`; its increment is checked
(`incrInt`) and returns `none` on signed overflow.
-/

namespace GameOfLife

/-! ## Data model -/

/-- Maximum number of rows in grid (`const int RMAX = 10`). -/
abbrev RMAX : Nat := 10

/-- Maximum number of columns in grid (`const int CMAX = 10`). -/
abbrev CMAX : Nat := 10

/-- The cell grid `int grid[RMAX][CMAX]`. -/
abbrev Grid := Fin RMAX → Fin CMAX → Int

/-- A look-up table `int reqs[9]` (`birth`, `survival`). -/
abbrev Table := Fin 9 → Int

/-- Bounds-checked read of `grid[r][c]` at run-time indices. -/
def Grid.read (grid : Grid) (r c : Int) : Option Int :=
  if h : 0 ≤ r ∧ r < 10 ∧ 0 ≤ c ∧ c < 10 then
    some (grid ⟨r.toNat, by show r.toNat < 10; omega⟩
      ⟨c.toNat, by show c.toNat < 10; omega⟩)
  else none

/-- The assignment `grid[r][c] = v` at loop indices of the full-grid loops. -/
def setCell (grid : Grid) (r : Fin RMAX) (c : Fin CMAX) (v : Int) : Grid :=
  fun r' c' => if r' = r ∧ c' = c then v else grid r' c'

/-- Bounds-checked write `reqs[i] = v` at a run-time index. -/
def Table.write (reqs : Table) (i : Int) (v : Int) : Option Table :=
  if h : 0 ≤ i ∧ i < 9 then
    some (fun k => if k = (⟨i.toNat, by omega⟩ : Fin 9) then v else reqs k)
  else none

/-! ## Loops -/

/-- A `for` loop whose variable runs through `is` in order; the body may fail. -/
def forEach {ι σ : Type} (body : ι → σ → Option σ) : List ι → σ → Option σ
  | [], s => some s
  | i :: is, s => (body i s).bind (forEach body is)

/-- The values taken by `i` in `for (int i = lo; i <= hi; i++)`. -/
def intRange (lo hi : Int) : List Int :=
  (List.range (hi + 1 - lo).toNat).map (fun (k : Nat) => lo + (k : Int))

/-! ## Neighbour counting -/

/-- Body of the inner loop of `CountType1Neighbors` / `CountType2Neighbors`; the two
source functions differ only in the constant `v` compared with `grid[r][c]`. -/
def countCell (v : Int) (grid : Grid) (row col r c : Int) (count : Int) : Option Int :=
  if r ≥ 0 ∧ r < RMAX ∧ c ≥ 0 ∧ c < CMAX ∧ ¬(r = row ∧ c = col) then
    (grid.read r c).bind (fun x => if x = v then some (count + 1) else some count)
  else some count

/-- The double loop shared by the two counting functions. -/
def countNeighbors (v : Int) (grid : Grid) (row col : Int) : Option Int :=
  forEach
    (fun r count =>
      forEach (fun c count => countCell v grid row col r c count)
        (intRange (col - 1) (col + 1)) count)
    (intRange (row - 1) (row + 1)) 0

/-- `int CountType1Neighbors(int grid[][CMAX], int row, int col)`. -/
def CountType1Neighbors (grid : Grid) (row col : Int) : Option Int :=
  countNeighbors 1 grid row col

/-- `int CountType2Neighbors(int grid[][CMAX], int row, int col)`. -/
def CountType2Neighbors (grid : Grid) (row col : Int) : Option Int :=
  countNeighbors 2 grid row col

/-! ## Generation step -/

/-- Body of the inner loop of `ComputeNextGrid` for the cell `(r, c)`. -/
def nextCell (current : Grid) (birth survival : Table) (r : Fin RMAX) (c : Fin CMAX)
    (next : Grid) : Option Grid :=
  (CountType1Neighbors current r c).bind fun type1Neighbors =>
  (CountType2Neighbors current r c).bind fun type2Neighbors =>
    if current r c = 0 then
      if type1Neighbors ≥ birth 1 ∧ type1Neighbors > type2Neighbors then
        some (setCell next r c 1)
      else if type2Neighbors ≥ birth 1 ∧ type2Neighbors > type1Neighbors then
        some (setCell next r c 2)
      else
        some (setCell next r c 0)
    else if current r c = 1 then
      if type1Neighbors < survival 1 ∨ type1Neighbors > survival 2 then
        some (setCell next r c 0)
      else
        some (setCell next r c 1)
    else if current r c = 2 then
      if type2Neighbors < survival 1 ∨ type2Neighbors > survival 2 then
        some (setCell next r c 0)
      else
        some (setCell next r c 2)
    else
      some next

/-- `void ComputeNextGrid(int current[][CMAX], int next[][CMAX], int birth[], int survival[])`:
the argument `next` is the content of the output buffer before the call, the result its
content after the call. -/
def ComputeNextGrid (current next : Grid) (birth survival : Table) : Option Grid :=
  forEach
    (fun r next =>
      forEach (fun c next => nextCell current birth survival r c next)
        (List.finRange CMAX) next)
    (List.finRange RMAX) next

/-- `void CopyGrid(const int source[][CMAX], int destination[][CMAX])`. -/
def CopyGrid (source destination : Grid) : Option Grid :=
  forEach
    (fun r destination =>
      forEach (fun c destination => some (setCell destination r c (source r c)))
        (List.finRange CMAX) destination)
    (List.finRange RMAX) destination

/-! ## Rule decoding -/

/-- `isdigit` of the C library on a character. -/
def isdigit (ch : Char) : Bool :=
  decide (48 ≤ ch.toNat ∧ ch.toNat ≤ 57)

/-- Body of the loop of `ParseRequirementsString` for the character `requirements[i]`. -/
def parseChar (ch : Char) (reqs : Table) : Option Table :=
  if isdigit ch then reqs.write ((ch.toNat : Int) - 48) 1 else some reqs

/-- `void ParseRequirementsString(string requirements, int reqs[])`: the loop index runs
over the positions `1 .. size-1`, that is over the characters of `requirements.drop 1`. -/
def ParseRequirementsString (requirements : List Char) (reqs : Table) : Option Table :=
  forEach parseChar (requirements.drop 1) reqs

/-! ## The program -/

/-- What `main` writes to the console after the rule strings have been read. -/
inductive Printed
  | formatError
  | configuration (birth survival : Table)
  | iteration (index : Int) (grid : Grid)

/-- The variables of `main` that the generation loop changes. -/
structure RunState where
  currentgrid : Grid
  nextgrid : Grid
  printed : List Printed

/-- Body of the generation loop of `main`. -/
def iterationBody (birth survival : Table) (iteration : Int) (st : RunState) :
    Option RunState :=
  (ComputeNextGrid st.currentgrid st.nextgrid birth survival).bind fun nextgrid =>
  (CopyGrid nextgrid st.currentgrid).bind fun currentgrid =>
    some ⟨currentgrid, nextgrid, st.printed ++ [Printed.iteration iteration currentgrid]⟩

/-- The largest value of the 32-bit C type `int`. -/
def INT_MAX : Int := 2147483647

/-- The increment `i++` of an `int` counter: at `INT_MAX` it overflows, which is
undefined. -/
def incrInt (i : Int) : Option Int :=
  if i < INT_MAX then some (i + 1) else none

/-- One pass of the generation loop of `main`: the body, then `iteration++`. -/
def iterationPass (birth survival : Table) (iteration : Int) (st : RunState) :
    Option RunState :=
  (iterationBody birth survival iteration st).bind fun st' =>
  (incrInt iteration).bind fun _ => some st'

/-- Lines 98-111 of `main`: print generation 0, then run
`for(int iteration = 1; iteration <= num; iteration++)`. The result is the state in which
the loop is left, or `none` when it cannot be left: the pass with `iteration = INT_MAX`
ends in the overflow of `iteration++`. -/
def runGenerations (num : Int) (birth survival : Table) (currentgrid nextgrid : Grid)
    (printed : List Printed) : Option RunState :=
  forEach (iterationPass birth survival) (intRange 1 num)
    ⟨currentgrid, nextgrid, printed ++ [Printed.iteration 0 currentgrid]⟩

/-- What lines 98-111 of `main` have done when the body of the last pass ends, before its
`iteration++`: generation 0 is printed and the loop body has run for
`iteration = 1, …, num`. -/
def generationPasses (num : Int) (birth survival : Table) (currentgrid nextgrid : Grid)
    (printed : List Printed) : Option RunState :=
  forEach (iterationBody birth survival) (intRange 1 num)
    ⟨currentgrid, nextgrid, printed ++ [Printed.iteration 0 currentgrid]⟩

/-- The character `s[0]` of a `std::string`; for an empty string it is the terminator. -/
def firstChar (s : List Char) : Char :=
  s.headD (Char.ofNat 0)

/-- The table after `for(int k=0; k<9; k++) reqs[k] = 0`. -/
def zeroTable : Table := fun _ => 0

/-- The part of `main` after `LoadConstraints`: `num`, `bstring`, `sstring` are the values
read from the file, `loaded` is the grid that `LoadGrid` stores into `currentgrid` and
`nextgrid` is the initial content of the second buffer. The result is the console
output of a run that ends, or `none` when an array is accessed outside its bounds or the
generation counter overflows. -/
def main (num : Int) (bstring sstring : List Char) (loaded nextgrid : Grid) :
    Option (List Printed) :=
  if firstChar bstring ≠ 'B' ∨ firstChar sstring ≠ 'S' then
    some [Printed.formatError]
  else
    (ParseRequirementsString bstring zeroTable).bind fun birth =>
    (ParseRequirementsString sstring zeroTable).bind fun survival =>
      (runGenerations num birth survival loaded nextgrid
        [Printed.configuration birth survival]).map (fun st => st.printed)

/-! ## Definitions used in the statements and proofs -/

/-- The clamped Moore count: the number of grid positions at Chebyshev distance 1 from
`(row, col)` that hold the value `v`. -/
def mooreCount (v : Int) (grid : Grid) (row col : Int) : Nat :=
  ((Finset.univ : Finset (Fin RMAX × Fin CMAX)).filter
    (fun p => max |(p.1 : Int) - row| |(p.2 : Int) - col| = 1 ∧ grid p.1 p.2 = v)).card

/-- The eight offsets `(dr, dc)` with `dr`, `dc` in `-1 .. 1`, other than `(0, 0)`. -/
def mooreOffsets : List (Int × Int) :=
  [(-1, -1), (-1, 0), (-1, 1), (0, -1), (0, 1), (1, -1), (1, 0), (1, 1)]

/-- The wrap-around count in the words of the claim on toroidal counting: the number of
offsets `(dr, dc)` for which the cell `((row+dr) mod 10, (col+dc) mod 10)` holds `v`. -/
def toroidalCount (v : Int) (grid : Grid) (row col : Int) : Nat :=
  mooreOffsets.countP
    (fun d => decide (grid.read ((row + d.1) % 10) ((col + d.2) % 10) = some v))

/-- The contribution of the scanned position `(r, c)` to the count of value `v`
around `(row, col)`. -/
def hit (v : Int) (grid : Grid) (row col r c : Int) : Int :=
  if 0 ≤ r ∧ r < 10 ∧ 0 ≤ c ∧ c < 10 ∧ ¬(r = row ∧ c = col) ∧ grid.read r c = some v
  then 1 else 0

/-- The sum of the nine contributions, in scan order. -/
def hitSum (v : Int) (grid : Grid) (row col : Int) : Int :=
  hit v grid row col (row - 1) (col - 1) + hit v grid row col (row - 1) col
    + hit v grid row col (row - 1) (col + 1)
    + hit v grid row col row (col - 1) + hit v grid row col row col
    + hit v grid row col row (col + 1)
    + hit v grid row col (row + 1) (col - 1) + hit v grid row col (row + 1) col
    + hit v grid row col (row + 1) (col + 1)

/-- The value that the body of `ComputeNextGrid` leaves in `next[r][c]`, as a function of
the cell's current content `cur`, its two neighbour counts and the content `old` of
`next[r][c]` before the call. -/
def ruleValue (birth survival : Table) (cur type1Neighbors type2Neighbors old : Int) : Int :=
  if cur = 0 then
    if type1Neighbors ≥ birth 1 ∧ type1Neighbors > type2Neighbors then 1
    else if type2Neighbors ≥ birth 1 ∧ type2Neighbors > type1Neighbors then 2
    else 0
  else if cur = 1 then
    if type1Neighbors < survival 1 ∨ type1Neighbors > survival 2 then 0 else 1
  else if cur = 2 then
    if type2Neighbors < survival 1 ∨ type2Neighbors > survival 2 then 0 else 2
  else old

/-- The grid left in `next` by `ComputeNextGrid`. -/
def nextGrid (current next : Grid) (birth survival : Table) : Grid :=
  fun r c => ruleValue birth survival (current r c)
    (hitSum 1 current (r : Nat) (c : Nat)) (hitSum 2 current (r : Nat) (c : Nat)) (next r c)

/-- The character of the decimal digit `k`. -/
def digitChar (k : Fin 9) : Char := Char.ofNat (48 + (k : Nat))

/-- The variables of `main` after `k` passes through the generation loop. -/
def stateAfter (birth survival : Table) (initial nextgrid : Grid) (printed : List Printed) :
    Nat → RunState
  | 0 => ⟨initial, nextgrid, printed ++ [Printed.iteration 0 initial]⟩
  | k + 1 =>
    let st := stateAfter birth survival initial nextgrid printed k
    let g := nextGrid st.currentgrid st.nextgrid birth survival
    ⟨g, g, st.printed ++ [Printed.iteration ((k : Int) + 1) g]⟩

/-- Every cell of the grid holds one of the three states 0 (Empty), 1, 2. -/
def validGrid (grid : Grid) : Prop :=
  ∀ r c, grid r c = 0 ∨ grid r c = 1 ∨ grid r c = 2

/-- Exchange of the two species values 1 and 2; every other value is kept. -/
def swapCell (x : Int) : Int :=
  if x = 1 then 2 else if x = 2 then 1 else x

/-- The grid with the two species exchanged in every cell. -/
def swapGrid (grid : Grid) : Grid :=
  fun r c => swapCell (grid r c)

/-! ## Example inputs -/

/-- All cells Empty. -/
def emptyGrid : Grid := fun _ _ => 0

/-- A single Type-1 cell in the corner `(9, 9)`. -/
def cornerGrid : Grid := fun r c => if r = 9 ∧ c = 9 then 1 else 0

/-- An Empty cell `(5, 5)` with two Type-1 neighbours above and two Type-2 neighbours
below. -/
def tieGrid : Grid := fun r c =>
  if r = 4 ∧ (c = 4 ∨ c = 5) then 1 else if r = 6 ∧ (c = 4 ∨ c = 5) then 2 else 0

/-- An Empty cell `(5, 5)` with three Type-1 neighbours and one Type-2 neighbour. -/
def birthGrid : Grid := fun r c =>
  if r = 4 ∧ (c = 4 ∨ c = 5 ∨ c = 6) then 1 else if r = 6 ∧ c = 5 then 2 else 0

/-- A Type-1 cell `(5, 5)` with exactly one Type-1 neighbour and three Type-2
neighbours. -/
def lonelyGrid : Grid := fun r c =>
  if r = 5 ∧ (c = 5 ∨ c = 6) then 1 else if r = 4 ∧ (c = 4 ∨ c = 5 ∨ c = 6) then 2 else 0

/-- A rule table with the given contents of slots 1 and 2 and zero elsewhere. -/
def tableOf (slot1 slot2 : Int) : Table := fun k =>
  if k = 1 then slot1 else if k = 2 then slot2 else 0

/-- The grid `tieGrid` with the unrecognised value 7 stored in the cell `(5, 5)`. -/
def junkGrid : Grid := fun r c => if r = 5 ∧ c = 5 then 7 else tieGrid r c

/-- A buffer content that is 9 in every cell. -/
def ninesGrid : Grid := fun _ _ => 9

/-- A rule table with the given contents of slots 1 and 2 and 5 in every other slot. -/
def noisyTableOf (slot1 slot2 : Int) : Table := fun k =>
  if k = 1 then slot1 else if k = 2 then slot2 else 5

/-- A Type-1 cell `(5, 5)` with exactly two Type-1 neighbours, `(5, 4)` and `(5, 6)`. -/
def pairGrid : Grid := fun r c => if r = 5 ∧ (c = 4 ∨ c = 5 ∨ c = 6) then 1 else 0

/-! ## Loop lemmas -/

theorem forEach_nil {ι σ : Type} (body : ι → σ → Option σ) (s : σ) :
    forEach body [] s = some s := rfl

theorem forEach_cons {ι σ : Type} (body : ι → σ → Option σ) (i : ι)
    (is : List ι) (s : σ) :
    forEach body (i :: is) s = (body i s).bind (forEach body is) := rfl

theorem forEach_append {ι σ : Type} (body : ι → σ → Option σ) (l₁ l₂ : List ι) (s : σ) :
    forEach body (l₁ ++ l₂) s = (forEach body l₁ s).bind (forEach body l₂) := by
  induction l₁ generalizing s with
  | nil => simp [forEach_nil]
  | cons i is ih =>
    simp only [List.cons_append, forEach_cons]
    cases body i s with
    | none => rfl
    | some s' => simpa using ih s'

/-- A loop whose body never fails is a left fold. -/
theorem forEach_total {ι σ : Type} (body : ι → σ → Option σ) (f : ι → σ → σ)
    (hbody : ∀ i s, body i s = some (f i s)) (l : List ι) (s : σ) :
    forEach body l s = some (l.foldl (fun s i => f i s) s) := by
  induction l generalizing s with
  | nil => rfl
  | cons i is ih => simp [forEach_cons, hbody, ih]

theorem intRange_three (x : Int) : intRange (x - 1) (x + 1) = [x - 1, x, x + 1] := by
  have h : (x + 1 + 1 - (x - 1)).toNat = 3 := by
    have : x + 1 + 1 - (x - 1) = 3 := by ring
    rw [this]; rfl
  unfold intRange
  rw [h]
  simp [List.range_succ]
  ring

theorem intRange_empty (lo hi : Int) (h : hi < lo) : intRange lo hi = [] := by
  unfold intRange
  have : (hi + 1 - lo).toNat = 0 := by omega
  rw [this]; rfl

theorem intRange_one_succ (n : Nat) :
    intRange 1 ((n : Int) + 1) = intRange 1 n ++ [(n : Int) + 1] := by
  unfold intRange
  have h1 : ((n : Int) + 1 + 1 - 1).toNat = n + 1 := by omega
  have h2 : ((n : Int) + 1 - 1).toNat = n := by omega
  rw [h1, h2, List.range_succ, List.map_append]
  simp [add_comm]

/-! ## Neighbour counting: closed form -/

theorem Grid.read_inBounds (grid : Grid) (r c : Int)
    (h : 0 ≤ r ∧ r < 10 ∧ 0 ≤ c ∧ c < 10) :
    grid.read r c = some (grid ⟨r.toNat, by show r.toNat < 10; omega⟩
      ⟨c.toNat, by show c.toNat < 10; omega⟩) := by
  unfold Grid.read
  rw [dif_pos h]

theorem Grid.read_fin (grid : Grid) (r : Fin RMAX) (c : Fin CMAX) :
    grid.read (r : Int) (c : Int) = some (grid r c) := by
  have hr : (r : Nat) < 10 := r.isLt
  have hc : (c : Nat) < 10 := c.isLt
  rw [Grid.read_inBounds grid r c ⟨by omega, by omega, by omega, by omega⟩]
  simp

theorem countCell_eq (v : Int) (grid : Grid) (row col r c count : Int) :
    countCell v grid row col r c count = some (count + hit v grid row col r c) := by
  unfold countCell hit
  by_cases hb : 0 ≤ r ∧ r < 10 ∧ 0 ≤ c ∧ c < 10
  · obtain ⟨h1, h2, h3, h4⟩ := hb
    rw [Grid.read_inBounds grid r c ⟨h1, h2, h3, h4⟩]
    by_cases hs : r = row ∧ c = col
    · simp [hs]
    · by_cases hv : grid ⟨r.toNat, by show r.toNat < 10; omega⟩
          ⟨c.toNat, by show c.toNat < 10; omega⟩ = v
      · simp [h1, h2, h3, h4, hs, hv]
      · simp [h1, h2, h3, h4, hs, hv]
  · have hb1 : ¬(r ≥ 0 ∧ r < (RMAX : Int) ∧ c ≥ 0 ∧ c < (CMAX : Int) ∧ ¬(r = row ∧ c = col)) := by
      intro h; exact hb ⟨h.1, by simpa using h.2.1, h.2.2.1, by simpa using h.2.2.2.1⟩
    have hb2 : ¬(0 ≤ r ∧ r < 10 ∧ 0 ≤ c ∧ c < 10 ∧ ¬(r = row ∧ c = col) ∧
        grid.read r c = some v) := by
      intro h; exact hb ⟨h.1, h.2.1, h.2.2.1, h.2.2.2.1⟩
    rw [if_neg hb1, if_neg hb2]; simp

/-- The neighbour scan never fails and returns the sum of the nine contributions. -/
theorem countNeighbors_eq (v : Int) (grid : Grid) (row col : Int) :
    countNeighbors v grid row col = some (hitSum v grid row col) := by
  unfold countNeighbors hitSum
  rw [intRange_three, intRange_three]
  simp only [forEach_cons, forEach_nil, countCell_eq, Option.some_bind, Option.bind_some]
  simp [add_assoc]

/-! ## Neighbour counting: the clamped Moore count -/

theorem hit_outside_row (v : Int) (grid : Grid) (row col r c : Int)
    (h : ¬(0 ≤ r ∧ r < 10)) : hit v grid row col r c = 0 := by
  unfold hit
  rw [if_neg]
  intro h'
  exact h ⟨h'.1, h'.2.1⟩

theorem hit_outside_col (v : Int) (grid : Grid) (row col r c : Int)
    (h : ¬(0 ≤ c ∧ c < 10)) : hit v grid row col r c = 0 := by
  unfold hit
  rw [if_neg]
  intro h'
  exact h ⟨h'.2.2.1, h'.2.2.2.1⟩

/-- Summing over one grid coordinate the terms within distance 1 of `x` leaves the three
terms at `x - 1`, `x`, `x + 1`, provided the summand vanishes outside the grid. -/
theorem sum_near (G : Int → Int) (hG : ∀ r, ¬(0 ≤ r ∧ r < 10) → G r = 0) (x : Int)
    (hx : 0 ≤ x ∧ x < 10) :
    (∑ r : Fin 10, if |((r : Nat) : Int) - x| ≤ 1 then G ((r : Nat) : Int) else 0)
      = G (x - 1) + G x + G (x + 1) := by
  have hm : G (-1) = 0 := hG (-1) (by omega)
  have hp : G 10 = 0 := hG 10 (by omega)
  rw [Fin.sum_univ_eq_sum_range
    (fun k : Nat => if |(k : Int) - x| ≤ 1 then G (k : Int) else 0) 10]
  obtain ⟨h0, h10⟩ := hx
  interval_cases x <;> simp [Finset.sum_range_succ, abs_le, hm, hp]

theorem cheb_one_iff (a b : Int) :
    max |a| |b| = 1 ↔ |a| ≤ 1 ∧ |b| ≤ 1 ∧ ¬(a = 0 ∧ b = 0) := by
  rcases abs_cases a with ⟨ha, _⟩ | ⟨ha, _⟩ <;> rcases abs_cases b with ⟨hb, _⟩ | ⟨hb, _⟩ <;>
    rcases max_cases |a| |b| with ⟨hm, _⟩ | ⟨hm, _⟩ <;> rw [hm] <;> omega

theorem indicator_eq_hit (v : Int) (grid : Grid) (row col : Int) (r : Fin RMAX)
    (c : Fin CMAX) :
    (if max |((r : Nat) : Int) - row| |((c : Nat) : Int) - col| = 1 ∧ grid r c = v
      then (1 : Int) else 0)
      = if |((r : Nat) : Int) - row| ≤ 1 then
          (if |((c : Nat) : Int) - col| ≤ 1 then hit v grid row col (r : Nat) (c : Nat)
            else 0)
        else 0 := by
  have hr : (r : Nat) < 10 := r.isLt
  have hc : (c : Nat) < 10 := c.isLt
  unfold hit
  rw [Grid.read_fin]
  simp only [cheb_one_iff]
  by_cases h1 : |((r : Nat) : Int) - row| ≤ 1
  · by_cases h2 : |((c : Nat) : Int) - col| ≤ 1
    · by_cases h3 : grid r c = v
      · by_cases h4 : ((r : Nat) : Int) = row ∧ ((c : Nat) : Int) = col
        · have h5 : ((r : Nat) : Int) - row = 0 ∧ ((c : Nat) : Int) - col = 0 := by omega
          simp [h1, h2, h3, h4, h5]
        · have h5 : ¬(((r : Nat) : Int) - row = 0 ∧ ((c : Nat) : Int) - col = 0) := by omega
          have h6 : (0 : Int) ≤ (r : Nat) ∧ ((r : Nat) : Int) < 10 ∧
              (0 : Int) ≤ (c : Nat) ∧ ((c : Nat) : Int) < 10 := by omega
          simp [h1, h2, h3, h4, h5, h6]
      · simp [h1, h2, h3]
    · simp [h1, h2]
  · simp [h1]

/-- The sum of the nine contributions is the clamped Moore count. -/
theorem hitSum_eq_mooreCount (v : Int) (grid : Grid) (row col : Int)
    (hrow : 0 ≤ row ∧ row < 10) (hcol : 0 ≤ col ∧ col < 10) :
    hitSum v grid row col = (mooreCount v grid row col : Int) := by
  unfold mooreCount
  rw [Finset.natCast_card_filter, Fintype.sum_prod_type]
  simp only [indicator_eq_hit]
  have inner : ∀ r : Int,
      (∑ c : Fin 10, if |((c : Nat) : Int) - col| ≤ 1 then hit v grid row col r (c : Nat)
        else 0)
        = hit v grid row col r (col - 1) + hit v grid row col r col
          + hit v grid row col r (col + 1) :=
    fun r => sum_near (fun c => hit v grid row col r c)
      (fun c hc => hit_outside_col v grid row col r c hc) col hcol
  have outer := sum_near
    (fun r => hit v grid row col r (col - 1) + hit v grid row col r col
      + hit v grid row col r (col + 1))
    (fun r hr => by
      simp [hit_outside_row v grid row col r _ hr]) row hrow
  have step : ∀ r : Fin 10,
      (∑ c : Fin 10, if |((r : Nat) : Int) - row| ≤ 1 then
          (if |((c : Nat) : Int) - col| ≤ 1 then hit v grid row col (r : Nat) (c : Nat)
            else 0)
        else 0)
        = if |((r : Nat) : Int) - row| ≤ 1 then
            hit v grid row col (r : Nat) (col - 1) + hit v grid row col (r : Nat) col
              + hit v grid row col (r : Nat) (col + 1)
          else 0 := by
    intro r
    by_cases h : |((r : Nat) : Int) - row| ≤ 1
    · simp only [h, if_true]; exact inner _
    · simp [h]
  rw [Finset.sum_congr rfl (fun r _ => step r), outer]
  unfold hitSum
  ring

theorem Grid.read_setCell_ne (grid : Grid) (r0 : Fin RMAX) (c0 : Fin CMAX) (x : Int)
    (r c : Int) (h : ¬(r = ((r0 : Nat) : Int) ∧ c = ((c0 : Nat) : Int))) :
    (setCell grid r0 c0 x).read r c = grid.read r c := by
  unfold Grid.read
  by_cases hb : 0 ≤ r ∧ r < 10 ∧ 0 ≤ c ∧ c < 10
  · rw [dif_pos hb, dif_pos hb]
    unfold setCell
    rw [if_neg]
    rintro ⟨h1, h2⟩
    apply h
    have e1 : r.toNat = (r0 : Nat) := congrArg Fin.val h1
    have e2 : c.toNat = (c0 : Nat) := congrArg Fin.val h2
    omega
  · rw [dif_neg hb, dif_neg hb]

/-- The scanned cell itself contributes nothing, so its content is irrelevant. -/
theorem hitSum_setCell_self (v : Int) (grid : Grid) (r0 : Fin RMAX) (c0 : Fin CMAX)
    (x : Int) :
    hitSum v (setCell grid r0 c0 x) (r0 : Nat) (c0 : Nat) = hitSum v grid (r0 : Nat) (c0 : Nat) := by
  have key : ∀ r c : Int, hit v (setCell grid r0 c0 x) (r0 : Nat) (c0 : Nat) r c
      = hit v grid (r0 : Nat) (c0 : Nat) r c := by
    intro r c
    unfold hit
    by_cases h : r = ((r0 : Nat) : Int) ∧ c = ((c0 : Nat) : Int)
    · simp [h]
    · rw [Grid.read_setCell_ne grid r0 c0 x r c h]
  unfold hitSum
  simp only [key]

/-! ## Generation step: closed form -/

theorem setCell_same (grid : Grid) (r : Fin RMAX) (c : Fin CMAX) :
    setCell grid r c (grid r c) = grid := by
  funext r' c'
  unfold setCell
  split_ifs with h
  · rw [h.1, h.2]
  · rfl

theorem nextCell_eq (current : Grid) (birth survival : Table) (r : Fin RMAX)
    (c : Fin CMAX) (next : Grid) :
    nextCell current birth survival r c next
      = some (setCell next r c (ruleValue birth survival (current r c)
          (hitSum 1 current (r : Nat) (c : Nat)) (hitSum 2 current (r : Nat) (c : Nat))
          (next r c))) := by
  unfold nextCell CountType1Neighbors CountType2Neighbors ruleValue
  simp only [countNeighbors_eq, Option.some_bind]
  split_ifs <;> first | rfl | (rw [setCell_same])

/-- Writing one row cell by cell. -/
theorem foldl_row (val : Fin RMAX → Fin CMAX → Int → Int) (r : Fin RMAX)
    (l : List (Fin CMAX)) (hl : l.Nodup) (g : Grid) :
    l.foldl (fun g c => setCell g r c (val r c (g r c))) g
      = fun r' c' => if r' = r ∧ c' ∈ l then val r' c' (g r' c') else g r' c' := by
  induction l generalizing g with
  | nil => simp
  | cons a l ih =>
    rw [List.nodup_cons] at hl
    rw [List.foldl_cons, ih hl.2]
    funext r' c'
    unfold setCell
    by_cases h1 : r' = r
    · subst h1
      by_cases h2 : c' = a
      · subst h2
        simp [hl.1]
      · by_cases h3 : c' ∈ l
        · simp [h2, h3]
        · simp [h2, h3]
    · simp [h1]

/-- Writing the rows one after the other. -/
theorem foldl_rows (val : Fin RMAX → Fin CMAX → Int → Int) (l : List (Fin RMAX))
    (hl : l.Nodup) (g : Grid) :
    l.foldl (fun g r => fun r' c' => if r' = r then val r' c' (g r' c') else g r' c') g
      = fun r' c' => if r' ∈ l then val r' c' (g r' c') else g r' c' := by
  induction l generalizing g with
  | nil => simp
  | cons a l ih =>
    rw [List.nodup_cons] at hl
    rw [List.foldl_cons, ih hl.2]
    funext r' c'
    by_cases h2 : r' = a
    · subst h2
      simp [hl.1]
    · by_cases h3 : r' ∈ l
      · simp [h2, h3]
      · simp [h2, h3]

/-- A full-grid double loop that stores `val r c (old content)` at every cell. -/
theorem fullGrid_loop (body : Fin RMAX → Fin CMAX → Grid → Option Grid)
    (val : Fin RMAX → Fin CMAX → Int → Int)
    (hbody : ∀ r c g, body r c g = some (setCell g r c (val r c (g r c)))) (g : Grid) :
    forEach (fun r g => forEach (fun c g => body r c g) (List.finRange CMAX) g)
      (List.finRange RMAX) g
      = some (fun r c => val r c (g r c)) := by
  have hrow : ∀ (r : Fin RMAX) (g : Grid),
      forEach (fun c g => body r c g) (List.finRange CMAX) g
        = some (fun r' c' => if r' = r then val r' c' (g r' c') else g r' c') := by
    intro r g
    rw [forEach_total (fun c g => body r c g)
      (fun c g => setCell g r c (val r c (g r c))) (fun c g => hbody r c g),
      foldl_row val r _ (List.nodup_finRange CMAX)]
    simp [List.mem_finRange]
  rw [forEach_total _ (fun r g => fun r' c' => if r' = r then val r' c' (g r' c') else g r' c')
    hrow, foldl_rows val _ (List.nodup_finRange RMAX)]
  simp [List.mem_finRange]

/-- `ComputeNextGrid` never fails and leaves `nextGrid` in the output buffer. -/
theorem ComputeNextGrid_eq (current next : Grid) (birth survival : Table) :
    ComputeNextGrid current next birth survival
      = some (nextGrid current next birth survival) := by
  unfold ComputeNextGrid
  rw [fullGrid_loop (fun r c g => nextCell current birth survival r c g)
    (fun r c old => ruleValue birth survival (current r c)
      (hitSum 1 current (r : Nat) (c : Nat)) (hitSum 2 current (r : Nat) (c : Nat)) old)
    (fun r c g => nextCell_eq current birth survival r c g)]
  rfl

/-- `CopyGrid` never fails and makes the destination equal to the source. -/
theorem CopyGrid_eq (source destination : Grid) :
    CopyGrid source destination = some source := by
  unfold CopyGrid
  rw [fullGrid_loop (fun r c g => some (setCell g r c (source r c)))
    (fun r c _ => source r c) (fun _ _ _ => rfl)]

/-! ## Grids without neighbours of a species -/

theorem hit_eq_zero (v : Int) (grid : Grid) (row col r c : Int)
    (h : ∀ (r' : Fin RMAX) (c' : Fin CMAX),
      ¬(((r' : Nat) : Int) = row ∧ ((c' : Nat) : Int) = col) → grid r' c' ≠ v) :
    hit v grid row col r c = 0 := by
  unfold hit
  rw [if_neg]
  rintro ⟨h1, h2, h3, h4, h5, h6⟩
  rw [Grid.read_inBounds grid r c ⟨h1, h2, h3, h4⟩] at h6
  refine h _ _ ?_ (Option.some.inj h6)
  intro h7
  apply h5
  simp only [Int.toNat_of_nonneg h1, Int.toNat_of_nonneg h3] at h7
  exact h7

theorem hitSum_eq_zero (v : Int) (grid : Grid) (row col : Int)
    (h : ∀ (r' : Fin RMAX) (c' : Fin CMAX),
      ¬(((r' : Nat) : Int) = row ∧ ((c' : Nat) : Int) = col) → grid r' c' ≠ v) :
    hitSum v grid row col = 0 := by
  unfold hitSum
  simp only [hit_eq_zero v grid row col _ _ h, add_zero]

/-! ## The claims -/

/-- C1 (birth rule). For every grid, all rule tables, every prior content of the output
buffer and every Empty cell `(r, c)`: both neighbour scans of `current` return counts
`countA`, `countB`, `ComputeNextGrid` returns a grid, and in it the cell is 1 if
`countA ≥ birth[1]` and `countA > countB`, else 2 if `countB ≥ birth[1]` and
`countB > countA`, else 0. -/
theorem C1_birth_rule (current next : Grid) (birth survival : Table) (r : Fin RMAX)
    (c : Fin CMAX) (hempty : current r c = 0) :
    ∃ countA countB out,
      CountType1Neighbors current (r : Nat) (c : Nat) = some countA ∧
      CountType2Neighbors current (r : Nat) (c : Nat) = some countB ∧
      ComputeNextGrid current next birth survival = some out ∧
      out r c = (if countA ≥ birth 1 ∧ countA > countB then 1
        else if countB ≥ birth 1 ∧ countB > countA then 2 else 0) := by
  refine ⟨hitSum 1 current (r : Nat) (c : Nat), hitSum 2 current (r : Nat) (c : Nat),
    nextGrid current next birth survival, countNeighbors_eq _ _ _ _,
    countNeighbors_eq _ _ _ _, ComputeNextGrid_eq _ _ _ _, ?_⟩
  simp only [nextGrid, ruleValue, hempty, if_true]

/-- Witness of C1: the Empty cell `(5, 5)` of `birthGrid` under birth threshold 2. -/
theorem C1_birth_rule_witness :
    birthGrid 5 5 = 0 ∧
    ∃ countA countB out,
      CountType1Neighbors birthGrid ((5 : Fin RMAX) : Nat) ((5 : Fin CMAX) : Nat)
        = some countA ∧
      CountType2Neighbors birthGrid ((5 : Fin RMAX) : Nat) ((5 : Fin CMAX) : Nat)
        = some countB ∧
      ComputeNextGrid birthGrid emptyGrid (tableOf 2 3) (tableOf 2 3) = some out ∧
      out 5 5 = (if countA ≥ tableOf 2 3 1 ∧ countA > countB then 1
        else if countB ≥ tableOf 2 3 1 ∧ countB > countA then 2 else 0) :=
  ⟨by decide, C1_birth_rule birthGrid emptyGrid (tableOf 2 3) (tableOf 2 3) 5 5 (by decide)⟩

/-- C2 (survival rule). For every grid, all rule tables and every cell holding a species
`s ∈ {1, 2}`: the scan for `s` returns a count `n`, `ComputeNextGrid` returns a grid, and
in it the cell is 0 if `n < survival[1]` or `n > survival[2]` and `s` otherwise; any other
grid in which the cell holds `s` with the same count `n` gives the same cell, whatever the
other species' count. With `survival[1] = 2`, `survival[2] = 3` a Type-1 cell dies for
`n = 1`, survives for `n = 2` or `n = 3` and dies for `n = 4`; with `survival[1] = 1`,
`survival[2] = 8` a Type-1 cell whose other cells are all Empty has `n = 0` and becomes
Empty. -/
theorem C2_survival_rule (current next : Grid) (birth survival : Table) (r : Fin RMAX)
    (c : Fin CMAX) (s : Int) (hs : s = 1 ∨ s = 2) (hcell : current r c = s) :
    ∃ n out,
      (if s = 1 then CountType1Neighbors current (r : Nat) (c : Nat)
        else CountType2Neighbors current (r : Nat) (c : Nat)) = some n ∧
      ComputeNextGrid current next birth survival = some out ∧
      out r c = (if n < survival 1 ∨ n > survival 2 then 0 else s) ∧
      (∀ (current' next' : Grid) (birth' : Table), current' r c = s →
        (if s = 1 then CountType1Neighbors current' (r : Nat) (c : Nat)
          else CountType2Neighbors current' (r : Nat) (c : Nat)) = some n →
        ∃ out', ComputeNextGrid current' next' birth' survival = some out' ∧
          out' r c = out r c) ∧
      (s = 1 → survival 1 = 2 → survival 2 = 3 →
        (n = 1 → out r c = 0) ∧ (n = 2 ∨ n = 3 → out r c = 1) ∧ (n = 4 → out r c = 0)) ∧
      (s = 1 → survival 1 = 1 → survival 2 = 8 →
        (∀ r' c', ¬(r' = r ∧ c' = c) → current r' c' = 0) → n = 0 ∧ out r c = 0) := by
  have hcell1 : ∀ g : Grid, g r c = 1 → ∀ nx bt,
      nextGrid g nx bt survival r c
        = if hitSum 1 g (r : Nat) (c : Nat) < survival 1 ∨
            hitSum 1 g (r : Nat) (c : Nat) > survival 2 then 0 else 1 := by
    intro g hg nx bt
    simp [nextGrid, ruleValue, hg]
  have hcell2 : ∀ g : Grid, g r c = 2 → ∀ nx bt,
      nextGrid g nx bt survival r c
        = if hitSum 2 g (r : Nat) (c : Nat) < survival 1 ∨
            hitSum 2 g (r : Nat) (c : Nat) > survival 2 then 0 else 2 := by
    intro g hg nx bt
    simp [nextGrid, ruleValue, hg]
  rcases hs with rfl | rfl
  · refine ⟨hitSum 1 current (r : Nat) (c : Nat), nextGrid current next birth survival,
      by simpa using countNeighbors_eq 1 current _ _, ComputeNextGrid_eq _ _ _ _,
      hcell1 current hcell next birth, ?_, ?_, ?_⟩
    · intro current' next' birth' hcell' hn
      refine ⟨_, ComputeNextGrid_eq _ _ _ _, ?_⟩
      have hn' : hitSum 1 current' (r : Nat) (c : Nat) = hitSum 1 current (r : Nat) (c : Nat) := by
        have h := countNeighbors_eq 1 current' (r : Nat) (c : Nat)
        simp only [if_true, CountType1Neighbors] at hn
        rw [h] at hn
        exact Option.some.inj hn
      rw [hcell1 current' hcell', hcell1 current hcell, hn']
    · intro _ h1 h2
      rw [hcell1 current hcell, h1, h2]
      refine ⟨fun h => by rw [h]; decide, fun h => ?_, fun h => by rw [h]; decide⟩
      rcases h with h | h <;> rw [h] <;> decide
    · intro _ h1 h2 hiso
      have hz : hitSum 1 current (r : Nat) (c : Nat) = 0 := by
        apply hitSum_eq_zero
        intro r' c' hne
        rw [hiso r' c']
        · decide
        · intro h
          apply hne
          rw [h.1, h.2]
          exact ⟨rfl, rfl⟩
      refine ⟨hz, ?_⟩
      rw [hcell1 current hcell, hz, h1, h2]
      decide
  · refine ⟨hitSum 2 current (r : Nat) (c : Nat), nextGrid current next birth survival,
      by simpa using countNeighbors_eq 2 current _ _, ComputeNextGrid_eq _ _ _ _,
      hcell2 current hcell next birth, ?_, ?_, ?_⟩
    · intro current' next' birth' hcell' hn
      refine ⟨_, ComputeNextGrid_eq _ _ _ _, ?_⟩
      have hn' : hitSum 2 current' (r : Nat) (c : Nat) = hitSum 2 current (r : Nat) (c : Nat) := by
        have h := countNeighbors_eq 2 current' (r : Nat) (c : Nat)
        have h21 : ¬((2 : Int) = 1) := by decide
        simp only [h21, if_false, CountType2Neighbors] at hn
        rw [h] at hn
        exact Option.some.inj hn
      rw [hcell2 current' hcell', hcell2 current hcell, hn']
    · intro h; exact absurd h (by decide)
    · intro h; exact absurd h (by decide)

/-- Witness of C2: the Type-1 cell `(5, 5)` of `lonelyGrid` under survival range [2,3]. -/
theorem C2_survival_rule_witness :
    ((1 : Int) = 1 ∨ (1 : Int) = 2) ∧ lonelyGrid 5 5 = 1 ∧
    ∃ n out,
      (if (1 : Int) = 1
        then CountType1Neighbors lonelyGrid ((5 : Fin RMAX) : Nat) ((5 : Fin CMAX) : Nat)
        else CountType2Neighbors lonelyGrid ((5 : Fin RMAX) : Nat) ((5 : Fin CMAX) : Nat))
        = some n ∧
      ComputeNextGrid lonelyGrid emptyGrid (tableOf 2 3) (tableOf 2 3) = some out ∧
      out 5 5 = (if n < tableOf 2 3 1 ∨ n > tableOf 2 3 2 then 0 else 1) ∧
      (∀ (current' next' : Grid) (birth' : Table), current' 5 5 = 1 →
        (if (1 : Int) = 1
          then CountType1Neighbors current' ((5 : Fin RMAX) : Nat) ((5 : Fin CMAX) : Nat)
          else CountType2Neighbors current' ((5 : Fin RMAX) : Nat) ((5 : Fin CMAX) : Nat))
          = some n →
        ∃ out', ComputeNextGrid current' next' birth' (tableOf 2 3) = some out' ∧
          out' 5 5 = out 5 5) ∧
      ((1 : Int) = 1 → tableOf 2 3 1 = 2 → tableOf 2 3 2 = 3 →
        (n = 1 → out 5 5 = 0) ∧ (n = 2 ∨ n = 3 → out 5 5 = 1) ∧ (n = 4 → out 5 5 = 0)) ∧
      ((1 : Int) = 1 → tableOf 2 3 1 = 1 → tableOf 2 3 2 = 8 →
        (∀ r' c', ¬(r' = 5 ∧ c' = 5) → lonelyGrid r' c' = 0) → n = 0 ∧ out 5 5 = 0) :=
  ⟨Or.inl rfl, by decide,
    C2_survival_rule lonelyGrid emptyGrid (tableOf 2 3) (tableOf 2 3) 5 5 1 (Or.inl rfl)
      (by decide)⟩

/-- C3 (clamped Moore count). For every grid and every cell `(row, col)` of the grid,
`CountType1Neighbors` returns the number of grid positions at Chebyshev distance 1 from
the cell that hold 1, `CountType2Neighbors` the number of those that hold 2, and neither
result changes when the content of the cell itself is replaced by any value. -/
theorem C3_clamped_moore_count (grid : Grid) (row : Fin RMAX) (col : Fin CMAX) :
    CountType1Neighbors grid (row : Nat) (col : Nat)
      = some ((mooreCount 1 grid (row : Nat) (col : Nat) : Nat) : Int) ∧
    CountType2Neighbors grid (row : Nat) (col : Nat)
      = some ((mooreCount 2 grid (row : Nat) (col : Nat) : Nat) : Int) ∧
    ∀ x : Int,
      CountType1Neighbors (setCell grid row col x) (row : Nat) (col : Nat)
        = CountType1Neighbors grid (row : Nat) (col : Nat) ∧
      CountType2Neighbors (setCell grid row col x) (row : Nat) (col : Nat)
        = CountType2Neighbors grid (row : Nat) (col : Nat) := by
  have hr : (row : Nat) < 10 := row.isLt
  have hc : (col : Nat) < 10 := col.isLt
  have hrow : (0 : Int) ≤ (row : Nat) ∧ ((row : Nat) : Int) < 10 := by omega
  have hcol : (0 : Int) ≤ (col : Nat) ∧ ((col : Nat) : Int) < 10 := by omega
  refine ⟨?_, ?_, fun x => ⟨?_, ?_⟩⟩
  · rw [← hitSum_eq_mooreCount 1 grid _ _ hrow hcol]
    exact countNeighbors_eq _ _ _ _
  · rw [← hitSum_eq_mooreCount 2 grid _ _ hrow hcol]
    exact countNeighbors_eq _ _ _ _
  · unfold CountType1Neighbors
    rw [countNeighbors_eq, countNeighbors_eq, hitSum_setCell_self]
  · unfold CountType2Neighbors
    rw [countNeighbors_eq, countNeighbors_eq, hitSum_setCell_self]

/-- C4 (toroidal counting), evaluated on the code: with a single Type-1 cell at `(9, 9)`
the scan around `(0, 0)` returns 0, whereas the wrap-around count of the eight cells
`((row+dr) mod 10, (col+dc) mod 10)` is 1. -/
theorem C4_no_wraparound :
    CountType1Neighbors cornerGrid 0 0 = some 0 ∧
    CountType2Neighbors (fun r c => 2 * cornerGrid r c) 0 0 = some 0 ∧
    toroidalCount 1 cornerGrid 0 0 = 1 ∧
    toroidalCount 2 (fun r c => 2 * cornerGrid r c) 0 0 = 1 := by
  decide

/-- C5 (birth tie-break). For every grid, all rule tables and every Empty cell whose two
neighbour scans return the same count, `ComputeNextGrid` returns a grid in which the
cell is Empty; in particular so for birth threshold 2 and counts 2 and 2. -/
theorem C5_birth_tie (current next : Grid) (birth survival : Table) (r : Fin RMAX)
    (c : Fin CMAX) (hempty : current r c = 0)
    (htie : CountType1Neighbors current (r : Nat) (c : Nat)
      = CountType2Neighbors current (r : Nat) (c : Nat)) :
    ∃ out, ComputeNextGrid current next birth survival = some out ∧ out r c = 0 := by
  refine ⟨_, ComputeNextGrid_eq _ _ _ _, ?_⟩
  unfold CountType1Neighbors CountType2Neighbors at htie
  rw [countNeighbors_eq, countNeighbors_eq] at htie
  have h := Option.some.inj htie
  simp [nextGrid, ruleValue, hempty, h]

/-- Witness of C5: the Empty cell `(5, 5)` of `tieGrid` has exactly 2 Type-1 and 2 Type-2
neighbours and stays Empty under birth threshold 2. -/
theorem C5_birth_tie_witness :
    tieGrid 5 5 = 0 ∧ tableOf 2 3 1 = 2 ∧
    CountType1Neighbors tieGrid ((5 : Fin RMAX) : Nat) ((5 : Fin CMAX) : Nat) = some 2 ∧
    CountType2Neighbors tieGrid ((5 : Fin RMAX) : Nat) ((5 : Fin CMAX) : Nat) = some 2 ∧
    ∃ out, ComputeNextGrid tieGrid emptyGrid (tableOf 2 3) (tableOf 2 3) = some out ∧
      out 5 5 = 0 :=
  ⟨by decide, by decide, by decide, by decide,
    C5_birth_tie tieGrid emptyGrid (tableOf 2 3) (tableOf 2 3) 5 5 (by decide) (by decide)⟩

/-- C6 (empty grid is a fixed point). If every cell of `current` is 0 then, for all rule
tables (a birth threshold of 0 or below included) and every prior content of the output
buffer, `ComputeNextGrid` returns the grid whose cells are all 0. -/
theorem C6_empty_fixed_point (current next : Grid) (birth survival : Table)
    (hempty : ∀ r c, current r c = 0) :
    ComputeNextGrid current next birth survival = some (fun _ _ => 0) := by
  rw [ComputeNextGrid_eq]
  congr 1
  funext r c
  have h1 : hitSum 1 current (r : Nat) (c : Nat) = 0 :=
    hitSum_eq_zero _ _ _ _ (fun r' c' _ => by rw [hempty]; decide)
  have h2 : hitSum 2 current (r : Nat) (c : Nat) = 0 :=
    hitSum_eq_zero _ _ _ _ (fun r' c' _ => by rw [hempty]; decide)
  simp [nextGrid, ruleValue, hempty, h1, h2]

/-- Witness of C6: the all-Empty grid under birth threshold 0, with a non-empty prior
content of the output buffer. -/
theorem C6_empty_fixed_point_witness :
    (∀ r c, emptyGrid r c = 0) ∧
    ComputeNextGrid emptyGrid tieGrid (tableOf 0 0) (tableOf 2 3) = some (fun _ _ => 0) :=
  ⟨fun _ _ => rfl,
    C6_empty_fixed_point emptyGrid tieGrid (tableOf 0 0) (tableOf 2 3) (fun _ _ => rfl)⟩

/-! ## Rule decoding: closed form -/

theorem digitChar_toNat (k : Fin 9) : (digitChar k).toNat = 48 + (k : Nat) := by
  fin_cases k <;> rfl

theorem digitChar_isdigit (k : Fin 9) : isdigit (digitChar k) = true := by
  fin_cases k <;> rfl

theorem eq_digitChar_iff (ch : Char) (k : Fin 9) :
    ch = digitChar k ↔ ch.toNat = 48 + (k : Nat) := by
  constructor
  · intro h; rw [h, digitChar_toNat]
  · intro h
    rw [← Char.ofNat_toNat ch, h]
    rfl

/-- One step of the decoding loop on a character that is not the digit 9. -/
theorem parseChar_eq (ch : Char) (reqs : Table) (h : isdigit ch = true → ch.toNat ≤ 56) :
    parseChar ch reqs = some (fun k => if ch = digitChar k then 1 else reqs k) := by
  unfold parseChar
  by_cases hd : isdigit ch = true
  · have h56 := h hd
    have h48 : 48 ≤ ch.toNat := by
      unfold isdigit at hd
      exact (of_decide_eq_true hd).1
    have hb : 0 ≤ ((ch.toNat : Int) - 48) ∧ ((ch.toNat : Int) - 48) < 9 := by omega
    rw [if_pos hd]
    unfold Table.write
    rw [dif_pos hb]
    congr 1
    funext k
    have hk : (k : Nat) < 9 := k.isLt
    have e : (k = (⟨((ch.toNat : Int) - 48).toNat, by omega⟩ : Fin 9)) ↔ ch = digitChar k := by
      rw [eq_digitChar_iff, Fin.ext_iff]
      show (k : Nat) = ((ch.toNat : Int) - 48).toNat ↔ _
      omega
    by_cases hk' : ch = digitChar k
    · rw [if_pos hk', if_pos (e.2 hk')]
    · rw [if_neg hk', if_neg (fun h' => hk' (e.1 h'))]
  · rw [if_neg hd]
    congr 1
    funext k
    rw [if_neg]
    intro hk
    apply hd
    rw [hk]
    exact digitChar_isdigit k

/-- The decoding loop over a list of characters without the digit 9. -/
theorem parseLoop_eq (l : List Char) (h : ∀ ch ∈ l, isdigit ch = true → ch.toNat ≤ 56)
    (reqs : Table) :
    forEach parseChar l reqs = some (fun k => if digitChar k ∈ l then 1 else reqs k) := by
  induction l generalizing reqs with
  | nil => simp [forEach_nil]
  | cons ch rest ih =>
    rw [forEach_cons, parseChar_eq ch reqs (h ch (List.mem_cons_self _ _)), Option.some_bind,
      ih (fun x hx => h x (List.mem_cons_of_mem _ hx))]
    congr 1
    funext k
    by_cases h1 : digitChar k ∈ rest
    · simp [h1]
    · by_cases h2 : ch = digitChar k
      · simp [h2]
      · have h3 : ¬(digitChar k = ch) := fun e => h2 e.symm
        simp [h1, h2, h3]

theorem mem_drop_one_iff (l : List Char) (d : Char) :
    d ∈ l.drop 1 ↔ ∃ i, 1 ≤ i ∧ l[i]? = some d := by
  rw [List.mem_iff_getElem?]
  constructor
  · rintro ⟨n, hn⟩
    rw [List.getElem?_drop] at hn
    exact ⟨1 + n, by omega, hn⟩
  · rintro ⟨i, hi, hd⟩
    refine ⟨i - 1, ?_⟩
    rw [List.getElem?_drop]
    have : 1 + (i - 1) = i := by omega
    rw [this]; exact hd

/-- C7 (rule decoding). For every requirements string in which no digit character after
the tag position exceeds '8', `ParseRequirementsString` applied to the zero-initialised
table returns a table whose entry `k` is 1 exactly when the digit `k` stands at some
position `i ≥ 1` and is 0 otherwise; the same table results for any other first character
and after removing every non-digit character behind it. -/
theorem C7_rule_decoding (requirements : List Char)
    (hdigits : ∀ ch ∈ requirements.drop 1, isdigit ch = true → ch.toNat ≤ 56) :
    ∃ reqs, ParseRequirementsString requirements zeroTable = some reqs ∧
      (∀ k : Fin 9,
        (reqs k = 1 ↔ ∃ i, 1 ≤ i ∧ requirements[i]? = some (digitChar k)) ∧
        ((¬∃ i, 1 ≤ i ∧ requirements[i]? = some (digitChar k)) → reqs k = 0)) ∧
      ∀ tag : Char,
        ParseRequirementsString
          (tag :: (requirements.drop 1).filter (fun ch => isdigit ch)) zeroTable
          = some reqs := by
  refine ⟨_, parseLoop_eq _ hdigits zeroTable, ?_, ?_⟩
  · intro k
    rw [← mem_drop_one_iff]
    by_cases h : digitChar k ∈ requirements.drop 1
    · rw [if_pos h]
      exact ⟨⟨fun _ => h, fun _ => rfl⟩, fun hn => absurd h hn⟩
    · rw [if_neg h]
      exact ⟨⟨fun e => absurd e (by simp [zeroTable]), fun hh => absurd hh h⟩, fun _ => rfl⟩
  · intro tag
    unfold ParseRequirementsString
    rw [List.drop_one, List.tail_cons, parseLoop_eq]
    · congr 1
      funext k
      simp [List.mem_filter, digitChar_isdigit]
    · intro ch hch
      exact hdigits ch (List.mem_of_mem_filter hch)

/-- Witness of C7: the survival string "S23". -/
theorem C7_rule_decoding_witness :
    (∀ ch ∈ (['S', '2', '3'] : List Char).drop 1, isdigit ch = true → ch.toNat ≤ 56) ∧
    ∃ reqs, ParseRequirementsString ['S', '2', '3'] zeroTable = some reqs ∧
      (∀ k : Fin 9,
        (reqs k = 1 ↔ ∃ i, 1 ≤ i ∧ (['S', '2', '3'] : List Char)[i]? = some (digitChar k)) ∧
        ((¬∃ i, 1 ≤ i ∧ (['S', '2', '3'] : List Char)[i]? = some (digitChar k)) →
          reqs k = 0)) ∧
      ∀ tag : Char,
        ParseRequirementsString
          (tag :: ((['S', '2', '3'] : List Char).drop 1).filter (fun ch => isdigit ch))
          zeroTable
          = some reqs :=
  ⟨by decide, C7_rule_decoding ['S', '2', '3'] (by decide)⟩

/-! ## The generation loop of `main` -/

theorem iterationBody_eq (birth survival : Table) (iteration : Int) (st : RunState) :
    iterationBody birth survival iteration st
      = some ⟨nextGrid st.currentgrid st.nextgrid birth survival,
          nextGrid st.currentgrid st.nextgrid birth survival,
          st.printed ++ [Printed.iteration iteration
            (nextGrid st.currentgrid st.nextgrid birth survival)]⟩ := by
  unfold iterationBody
  rw [ComputeNextGrid_eq, Option.some_bind, CopyGrid_eq, Option.some_bind]

theorem generationPasses_natCast (n : Nat) (birth survival : Table)
    (initial nextgrid : Grid) (printed : List Printed) :
    generationPasses (n : Int) birth survival initial nextgrid printed
      = some (stateAfter birth survival initial nextgrid printed n) := by
  unfold generationPasses
  induction n with
  | zero =>
    rw [Nat.cast_zero, intRange_empty 1 0 (by decide)]
    rfl
  | succ k ih =>
    rw [Nat.cast_succ, intRange_one_succ, forEach_append, ih, Option.some_bind, forEach_cons,
      iterationBody_eq]
    rfl

/-- The passes of the generation loop never fail; the body runs `num` times, or not at all
when `num ≤ 0`. -/
theorem generationPasses_eq (num : Int) (birth survival : Table) (initial nextgrid : Grid)
    (printed : List Printed) :
    generationPasses num birth survival initial nextgrid printed
      = some (stateAfter birth survival initial nextgrid printed num.toNat) := by
  by_cases h : 0 ≤ num
  · have e : num = (num.toNat : Int) := (Int.toNat_of_nonneg h).symm
    conv_lhs => rw [e]
    exact generationPasses_natCast _ _ _ _ _ _
  · have e : num.toNat = 0 := by omega
    rw [e]
    unfold generationPasses
    rw [intRange_empty 1 num (by omega)]
    rfl

theorem mem_intRange (lo hi i : Int) : i ∈ intRange lo hi ↔ lo ≤ i ∧ i ≤ hi := by
  unfold intRange
  rw [List.mem_map]
  constructor
  · rintro ⟨k, hk, rfl⟩
    rw [List.mem_range] at hk
    omega
  · rintro ⟨h1, h2⟩
    refine ⟨(i - lo).toNat, ?_, ?_⟩
    · rw [List.mem_range]; omega
    · omega

theorem forEach_congr {ι σ : Type} (body body' : ι → σ → Option σ) (l : List ι)
    (h : ∀ i ∈ l, ∀ s, body i s = body' i s) (s : σ) :
    forEach body l s = forEach body' l s := by
  induction l generalizing s with
  | nil => rfl
  | cons i is ih =>
    rw [forEach_cons, forEach_cons, h i (List.mem_cons_self _ _)]
    cases body' i s with
    | none => rfl
    | some s' => exact ih (fun j hj => h j (List.mem_cons_of_mem _ hj)) s'

/-- A loop one of whose passes fails in every state fails. -/
theorem forEach_eq_none {ι σ : Type} (body : ι → σ → Option σ) (l : List ι) (i : ι)
    (hi : i ∈ l) (h : ∀ s, body i s = none) (s : σ) : forEach body l s = none := by
  induction l generalizing s with
  | nil => exact absurd hi (List.not_mem_nil _)
  | cons j js ih =>
    rw [forEach_cons]
    rcases List.mem_cons.1 hi with e | hmem
    · rw [← e, h s]; rfl
    · cases body j s with
      | none => rfl
      | some s' => exact ih hmem s'

theorem iterationPass_eq (birth survival : Table) (iteration : Int) (st : RunState)
    (h : iteration < INT_MAX) :
    iterationPass birth survival iteration st = iterationBody birth survival iteration st := by
  unfold iterationPass incrInt
  rw [if_pos h]
  cases iterationBody birth survival iteration st <;> rfl

theorem iterationPass_overflow (birth survival : Table) (st : RunState) :
    iterationPass birth survival INT_MAX st = none := by
  unfold iterationPass incrInt
  rw [iterationBody_eq, if_neg (lt_irrefl _)]
  rfl

/-- Below `INT_MAX` the generation loop is left after `num` passes, or at once when
`num ≤ 0`. -/
theorem runGenerations_eq (num : Int) (hmax : num < INT_MAX) (birth survival : Table)
    (initial nextgrid : Grid) (printed : List Printed) :
    runGenerations num birth survival initial nextgrid printed
      = some (stateAfter birth survival initial nextgrid printed num.toNat) := by
  rw [← generationPasses_eq]
  unfold runGenerations generationPasses
  apply forEach_congr
  intro i hi s
  rw [mem_intRange] at hi
  exact iterationPass_eq _ _ _ _ (lt_of_le_of_lt hi.2 hmax)

/-- From `INT_MAX` on the generation loop cannot be left. -/
theorem runGenerations_overflow (num : Int) (hmax : INT_MAX ≤ num) (birth survival : Table)
    (initial nextgrid : Grid) (printed : List Printed) :
    runGenerations num birth survival initial nextgrid printed = none := by
  unfold runGenerations
  exact forEach_eq_none _ _ INT_MAX ((mem_intRange _ _ _).2 ⟨by decide, hmax⟩)
    (iterationPass_overflow birth survival) _

theorem stateAfter_nextgrid (birth survival : Table) (initial nextgrid : Grid)
    (printed : List Printed) (k : Nat) :
    (stateAfter birth survival initial nextgrid printed k).nextgrid
      = if k = 0 then nextgrid
        else (stateAfter birth survival initial nextgrid printed k).currentgrid := by
  cases k with
  | zero => rfl
  | succ k => rfl

theorem stateAfter_printed (birth survival : Table) (initial nextgrid : Grid)
    (printed : List Printed) (n : Nat) :
    (stateAfter birth survival initial nextgrid printed n).printed
      = printed ++ (List.range (n + 1)).map (fun (k : Nat) => Printed.iteration (k : Int)
          (stateAfter birth survival initial nextgrid printed k).currentgrid) := by
  induction n with
  | zero => rfl
  | succ k ih =>
    rw [List.range_succ, List.map_append, ← List.append_assoc, ← ih]
    simp [stateAfter]

/-- C9, evaluated on the code: with `num = 2147483647`, the largest `int`, the condition
`iteration <= num` holds for every value of the counter, the pass with
`iteration = 2147483647` ends in the overflow of `iteration++`, and the generation loop is
never left; the passes before it have run and printed their snapshots. -/
theorem C9_counter_overflow_counterexample :
    (0 : Int) ≤ 2147483647 ∧
    runGenerations 2147483647 (tableOf 2 3) (tableOf 2 3) tieGrid emptyGrid [] = none ∧
    main 2147483647 ['B', '3'] ['S', '2', '3'] tieGrid emptyGrid = none ∧
    (generationPasses 2147483647 (tableOf 2 3) (tableOf 2 3) tieGrid emptyGrid []).isSome
      = true := by
  have hmax : INT_MAX ≤ 2147483647 := by decide
  refine ⟨by decide, runGenerations_overflow _ hmax _ _ _ _ _, ?_, ?_⟩
  · have hb := parseLoop_eq ((['B', '3'] : List Char).drop 1) (by decide) zeroTable
    have hs := parseLoop_eq ((['S', '2', '3'] : List Char).drop 1) (by decide) zeroTable
    unfold main ParseRequirementsString
    rw [if_neg (by decide), hb, hs, Option.some_bind, Option.some_bind,
      runGenerations_overflow _ hmax]
    rfl
  · rw [generationPasses_eq]
    rfl

/-- C9 as amended (simulation run). For every initial grid, rule tables, prior content of
the second buffer and `0 ≤ num < INT_MAX`, the generation loop of `main` is left normally
and has printed exactly `num + 1` snapshots `g 0, …, g num`, labelled `0 … num`, where
`g 0` is the loaded grid and, for every `k < num`, `g (k+1)` is what `ComputeNextGrid`
leaves in the second buffer when run on `g k` (the buffer holding its initial content for
`k = 0` and `g k` afterwards), copied back unchanged by `CopyGrid`; for `num = 0` the
single snapshot is the loaded grid. -/
theorem C9_simulation_run (num : Int) (hnum : 0 ≤ num) (hmax : num < INT_MAX)
    (birth survival : Table) (initial nextgrid : Grid) (printed : List Printed) :
    ∃ (g : Nat → Grid) (st : RunState),
      runGenerations num birth survival initial nextgrid printed = some st ∧
      st.printed = printed ++ (List.range (num.toNat + 1)).map
        (fun (k : Nat) => Printed.iteration (k : Int) (g k)) ∧
      (((List.range (num.toNat + 1)).length : Int) = num + 1) ∧
      g 0 = initial ∧
      (∀ k : Nat, (k : Int) < num →
        ComputeNextGrid (g k) (if k = 0 then nextgrid else g k) birth survival
          = some (g (k + 1)) ∧
        CopyGrid (g (k + 1)) (g k) = some (g (k + 1))) ∧
      (num = 0 → st.printed = printed ++ [Printed.iteration 0 initial]) := by
  refine ⟨fun k => (stateAfter birth survival initial nextgrid printed k).currentgrid,
    stateAfter birth survival initial nextgrid printed num.toNat,
    runGenerations_eq _ hmax _ _ _ _ _, stateAfter_printed _ _ _ _ _ _, ?_, rfl, ?_, ?_⟩
  · rw [List.length_range]; push_cast; omega
  · intro k _
    refine ⟨?_, CopyGrid_eq _ _⟩
    rw [ComputeNextGrid_eq, ← stateAfter_nextgrid]
    rfl
  · intro h
    rw [h]
    rfl

/-- Witness of C9: three generations from `tieGrid`. -/
theorem C9_simulation_run_witness :
    (0 : Int) ≤ 3 ∧ (3 : Int) < INT_MAX ∧
    ∃ (g : Nat → Grid) (st : RunState),
      runGenerations 3 (tableOf 2 3) (tableOf 2 3) tieGrid emptyGrid [] = some st ∧
      st.printed = [] ++ (List.range ((3 : Int).toNat + 1)).map
        (fun (k : Nat) => Printed.iteration (k : Int) (g k)) ∧
      (((List.range ((3 : Int).toNat + 1)).length : Int) = 3 + 1) ∧
      g 0 = tieGrid ∧
      (∀ k : Nat, (k : Int) < 3 →
        ComputeNextGrid (g k) (if k = 0 then emptyGrid else g k) (tableOf 2 3) (tableOf 2 3)
          = some (g (k + 1)) ∧
        CopyGrid (g (k + 1)) (g k) = some (g (k + 1))) ∧
      ((3 : Int) = 0 → st.printed = [] ++ [Printed.iteration 0 tieGrid]) :=
  ⟨by decide, by decide,
    C9_simulation_run 3 (by decide) (by decide) (tableOf 2 3) (tableOf 2 3) tieGrid
      emptyGrid []⟩

/-- C10, evaluated on the code: with `num = -1` and well-formed rule strings `main` prints
the decoded tables and the snapshot of generation 0; no error is reported. -/
theorem C10_negative_count_counterexample :
    ∃ birth survival,
      main (-1) ['B', '3'] ['S', '2', '3'] tieGrid emptyGrid
        = some [Printed.configuration birth survival, Printed.iteration 0 tieGrid] :=
  ⟨_, _, rfl⟩

/-- C10 as amended. For every `num < 0` the generation loop is not entered: the run ends
normally, having printed exactly one snapshot, the loaded grid as generation 0, and
leaving both buffers untouched. -/
theorem C10_negative_count_runs_zero_generations (num : Int) (hneg : num < 0)
    (birth survival : Table) (initial nextgrid : Grid) (printed : List Printed) :
    runGenerations num birth survival initial nextgrid printed
      = some ⟨initial, nextgrid, printed ++ [Printed.iteration 0 initial]⟩ := by
  unfold runGenerations
  rw [intRange_empty 1 num (by omega)]
  rfl

/-- Witness of the amended C10 at `num = -5`. -/
theorem C10_negative_count_runs_zero_generations_witness :
    (-5 : Int) < 0 ∧
    runGenerations (-5) (tableOf 2 3) (tableOf 2 3) tieGrid emptyGrid []
      = some ⟨tieGrid, emptyGrid, [] ++ [Printed.iteration 0 tieGrid]⟩ :=
  ⟨by decide,
    C10_negative_count_runs_zero_generations (-5) (by decide) (tableOf 2 3) (tableOf 2 3)
      tieGrid emptyGrid []⟩

/-- C8 (format check). For all rule strings, generation counts and grids: `main` prints
the format error, and nothing else, exactly when `bstring[0]` is not 'B' or `sstring[0]`
is not 'S' (an empty string has the terminator as first character); when both tags are
right `main` is the decoding of both strings followed by the generation loop, its output
never contains the format error, and, when moreover no digit after the tags exceeds '8',
both tables are decoded, `main` is the generation loop under the decoded tables, the passes
of the loop print the configuration followed by the snapshots, generation 0 being the
loaded grid, and for `num < INT_MAX` the loop is left and that is the output of `main`. -/
theorem C8_format_check (num : Int) (bstring sstring : List Char) (loaded nextgrid : Grid) :
    (main num bstring sstring loaded nextgrid = some [Printed.formatError]
      ↔ (firstChar bstring ≠ 'B' ∨ firstChar sstring ≠ 'S')) ∧
    (firstChar ([] : List Char) ≠ 'B' ∧ firstChar ([] : List Char) ≠ 'S') ∧
    (firstChar bstring = 'B' ∧ firstChar sstring = 'S' →
      main num bstring sstring loaded nextgrid
        = (ParseRequirementsString bstring zeroTable).bind (fun birth =>
            (ParseRequirementsString sstring zeroTable).bind (fun survival =>
              (runGenerations num birth survival loaded nextgrid
                [Printed.configuration birth survival]).map (fun st => st.printed))) ∧
      (∀ out, main num bstring sstring loaded nextgrid = some out →
        Printed.formatError ∉ out) ∧
      ((∀ ch ∈ bstring.drop 1 ++ sstring.drop 1, isdigit ch = true → ch.toNat ≤ 56) →
        ∃ birth survival st,
          ParseRequirementsString bstring zeroTable = some birth ∧
          ParseRequirementsString sstring zeroTable = some survival ∧
          main num bstring sstring loaded nextgrid
            = (runGenerations num birth survival loaded nextgrid
                [Printed.configuration birth survival]).map (fun st => st.printed) ∧
          generationPasses num birth survival loaded nextgrid
            [Printed.configuration birth survival] = some st ∧
          st.printed.take 2
            = [Printed.configuration birth survival, Printed.iteration 0 loaded] ∧
          (num < INT_MAX →
            runGenerations num birth survival loaded nextgrid
              [Printed.configuration birth survival] = some st ∧
            main num bstring sstring loaded nextgrid = some st.printed))) := by
  have hpipe : firstChar bstring = 'B' ∧ firstChar sstring = 'S' →
      main num bstring sstring loaded nextgrid
        = (ParseRequirementsString bstring zeroTable).bind (fun birth =>
            (ParseRequirementsString sstring zeroTable).bind (fun survival =>
              (runGenerations num birth survival loaded nextgrid
                [Printed.configuration birth survival]).map (fun st => st.printed))) := by
    intro h
    unfold main
    rw [if_neg]
    rw [h.1, h.2]
    simp
  have hclean : firstChar bstring = 'B' ∧ firstChar sstring = 'S' →
      ∀ out, main num bstring sstring loaded nextgrid = some out →
        Printed.formatError ∉ out := by
    intro h out hout
    rw [hpipe h] at hout
    cases hb : ParseRequirementsString bstring zeroTable with
    | none => rw [hb] at hout; exact absurd hout (by simp)
    | some birth =>
      cases hs : ParseRequirementsString sstring zeroTable with
      | none => rw [hb, hs] at hout; exact absurd hout (by simp)
      | some survival =>
        rw [hb, hs, Option.some_bind, Option.some_bind] at hout
        by_cases hmax : num < INT_MAX
        · rw [runGenerations_eq _ hmax, Option.map_some', stateAfter_printed] at hout
          rw [← Option.some.inj hout]
          simp
        · rw [runGenerations_overflow _ (not_lt.1 hmax)] at hout
          exact absurd hout (by simp)
  refine ⟨⟨?_, ?_⟩, ⟨by decide, by decide⟩, fun h => ⟨hpipe h, hclean h, ?_⟩⟩
  · intro hmain
    by_contra hn
    have h : firstChar bstring = 'B' ∧ firstChar sstring = 'S' := by
      constructor
      · by_contra hb; exact hn (Or.inl hb)
      · by_contra hs; exact hn (Or.inr hs)
    exact hclean h _ hmain (List.mem_singleton_self _)
  · intro h
    unfold main
    rw [if_pos h]
  · intro hd
    have hb := parseLoop_eq (bstring.drop 1)
      (fun ch hch => hd ch (List.mem_append_left _ hch)) zeroTable
    have hs := parseLoop_eq (sstring.drop 1)
      (fun ch hch => hd ch (List.mem_append_right _ hch)) zeroTable
    obtain ⟨birth, hb⟩ : ∃ birth, ParseRequirementsString bstring zeroTable = some birth :=
      ⟨_, hb⟩
    obtain ⟨survival, hs⟩ :
        ∃ survival, ParseRequirementsString sstring zeroTable = some survival := ⟨_, hs⟩
    have hmain : main num bstring sstring loaded nextgrid
        = (runGenerations num birth survival loaded nextgrid
            [Printed.configuration birth survival]).map (fun st => st.printed) := by
      rw [hpipe h, hb, hs, Option.some_bind, Option.some_bind]
    refine ⟨birth, survival, _, hb, hs, hmain, generationPasses_eq _ _ _ _ _ _, ?_,
      fun hmax => ?_⟩
    · rw [stateAfter_printed, List.range_succ_eq_map]
      rfl
    · refine ⟨runGenerations_eq _ hmax _ _ _ _ _, ?_⟩
      rw [hmain, runGenerations_eq _ hmax, Option.map_some']

/-- Witness of C8: the rule strings "B3" and "S23" with two generations. -/
theorem C8_format_check_witness :
    firstChar ['B', '3'] = 'B' ∧ firstChar ['S', '2', '3'] = 'S' ∧
    (∀ ch ∈ (['B', '3'] : List Char).drop 1 ++ (['S', '2', '3'] : List Char).drop 1,
      isdigit ch = true → ch.toNat ≤ 56) ∧
    (2 : Int) < INT_MAX ∧
    ∃ birth survival st,
      ParseRequirementsString ['B', '3'] zeroTable = some birth ∧
      ParseRequirementsString ['S', '2', '3'] zeroTable = some survival ∧
      runGenerations 2 birth survival tieGrid emptyGrid
        [Printed.configuration birth survival] = some st ∧
      main 2 ['B', '3'] ['S', '2', '3'] tieGrid emptyGrid = some st.printed ∧
      st.printed.take 2
        = [Printed.configuration birth survival, Printed.iteration 0 tieGrid] :=
  ⟨by decide, by decide, by decide, by decide,
    let ⟨birth, survival, st, hb, hs, _, _, htake, hrun⟩ :=
      (C8_format_check 2 ['B', '3'] ['S', '2', '3'] tieGrid emptyGrid).2.2
        ⟨by decide, by decide⟩ |>.2.2 (by decide)
    ⟨birth, survival, st, hb, hs, (hrun (by decide)).1, (hrun (by decide)).2, htake⟩⟩

/-! ## Valid grids -/

theorem ruleValue_valid (birth survival : Table) (cur n1 n2 old : Int)
    (h : cur = 0 ∨ cur = 1 ∨ cur = 2) :
    ruleValue birth survival cur n1 n2 old = 0 ∨ ruleValue birth survival cur n1 n2 old = 1 ∨
      ruleValue birth survival cur n1 n2 old = 2 := by
  unfold ruleValue
  rcases h with h | h | h <;> subst h <;> split_ifs <;>
    first | exact Or.inl rfl | exact Or.inr (Or.inl rfl) | exact Or.inr (Or.inr rfl) | omega

theorem ruleValue_old_irrelevant (birth survival : Table) (cur n1 n2 old old' : Int)
    (h : cur = 0 ∨ cur = 1 ∨ cur = 2) :
    ruleValue birth survival cur n1 n2 old = ruleValue birth survival cur n1 n2 old' := by
  unfold ruleValue
  rcases h with h | h | h <;> subst h <;> simp

theorem nextGrid_valid (current next : Grid) (birth survival : Table)
    (h : validGrid current) : validGrid (nextGrid current next birth survival) :=
  fun r c => ruleValue_valid _ _ _ _ _ _ (h r c)

theorem nextGrid_buffer_irrelevant (current next next' : Grid) (birth survival : Table)
    (h : validGrid current) :
    nextGrid current next birth survival = nextGrid current next' birth survival := by
  funext r c
  exact ruleValue_old_irrelevant _ _ _ _ _ _ _ (h r c)

theorem stateAfter_valid (birth survival : Table) (initial nextgrid : Grid)
    (printed : List Printed) (h : validGrid initial) (k : Nat) :
    validGrid (stateAfter birth survival initial nextgrid printed k).currentgrid := by
  induction k with
  | zero => exact h
  | succ k ih => exact nextGrid_valid _ _ _ _ ih

theorem stateAfter_succ_buffer_irrelevant (birth survival : Table)
    (initial nextgrid nextgrid' : Grid) (printed : List Printed) (h : validGrid initial)
    (k : Nat) :
    stateAfter birth survival initial nextgrid printed (k + 1)
      = stateAfter birth survival initial nextgrid' printed (k + 1) := by
  induction k with
  | zero =>
    simp only [stateAfter]
    rw [nextGrid_buffer_irrelevant initial nextgrid nextgrid' birth survival h]
  | succ k ih =>
    rw [stateAfter, ih]
    rfl

/-- C11 (cell-state invariant). If every cell of `current` is 0, 1 or 2 then, for all
rule tables and every prior content of the output buffer, `ComputeNextGrid` returns a
grid whose cells are all 0, 1 or 2; and for every generation count the passes of the
generation loop started from `current` end with a valid current grid, every snapshot
printed being valid, this being the state in which the loop is left when
`num < INT_MAX`. -/
theorem C11_cell_state_invariant (current next : Grid) (birth survival : Table)
    (hvalid : validGrid current) :
    (∃ out, ComputeNextGrid current next birth survival = some out ∧ validGrid out) ∧
    ∀ (num : Int) (printed : List Printed),
      ∃ st, generationPasses num birth survival current next printed = some st ∧
        validGrid st.currentgrid ∧
        (∀ p ∈ st.printed, p ∈ printed ∨ ∃ k g, p = Printed.iteration k g ∧ validGrid g) ∧
        (num < INT_MAX →
          runGenerations num birth survival current next printed = some st) := by
  refine ⟨⟨_, ComputeNextGrid_eq _ _ _ _, nextGrid_valid _ _ _ _ hvalid⟩, ?_⟩
  intro num printed
  refine ⟨_, generationPasses_eq _ _ _ _ _ _, stateAfter_valid _ _ _ _ _ hvalid _, ?_,
    fun hmax => runGenerations_eq _ hmax _ _ _ _ _⟩
  intro p hp
  rw [stateAfter_printed, List.mem_append] at hp
  rcases hp with hp | hp
  · exact Or.inl hp
  · rw [List.mem_map] at hp
    obtain ⟨k, _, hk⟩ := hp
    exact Or.inr ⟨_, _, hk.symm, stateAfter_valid _ _ _ _ _ hvalid _⟩

theorem tieGrid_valid : validGrid tieGrid := by
  intro r c
  unfold tieGrid
  split_ifs <;> simp

/-- Witness of C11: the valid grid `tieGrid`, with a buffer holding 9 in every cell. -/
theorem C11_cell_state_invariant_witness :
    validGrid tieGrid ∧
    (∃ out, ComputeNextGrid tieGrid ninesGrid (tableOf 2 3) (tableOf 2 3) = some out ∧
      validGrid out) ∧
    ∀ (num : Int) (printed : List Printed),
      ∃ st, generationPasses num (tableOf 2 3) (tableOf 2 3) tieGrid ninesGrid printed
          = some st ∧
        validGrid st.currentgrid ∧
        (∀ p ∈ st.printed, p ∈ printed ∨ ∃ k g, p = Printed.iteration k g ∧ validGrid g) ∧
        (num < INT_MAX →
          runGenerations num (tableOf 2 3) (tableOf 2 3) tieGrid ninesGrid printed
            = some st) :=
  ⟨tieGrid_valid,
    C11_cell_state_invariant tieGrid ninesGrid (tableOf 2 3) (tableOf 2 3) tieGrid_valid⟩

/-- C12 (totality and purity on valid grids). If every cell of `current` is 0, 1 or 2
then, for all rule tables: the loop body of every cell `(r, c)` stores a value that does
not depend on the buffer; for any two prior contents of the output buffer
`ComputeNextGrid` returns, and returns the same grid; and for every generation count the
passes of two runs from `current` that differ only in the initial content of the second
buffer end with the same printed sequence and the same current grid, these being the
states in which the two loops are left when `num < INT_MAX`. -/
theorem C12_total_and_pure (current : Grid) (birth survival : Table)
    (hvalid : validGrid current) :
    (∀ (r : Fin RMAX) (c : Fin CMAX), ∃ v : Int, ∀ next : Grid,
      nextCell current birth survival r c next = some (setCell next r c v)) ∧
    (∀ next next' : Grid, ∃ out,
      ComputeNextGrid current next birth survival = some out ∧
      ComputeNextGrid current next' birth survival = some out) ∧
    ∀ (num : Int) (next next' : Grid) (printed : List Printed), ∃ st st',
      generationPasses num birth survival current next printed = some st ∧
      generationPasses num birth survival current next' printed = some st' ∧
      st.printed = st'.printed ∧ st.currentgrid = st'.currentgrid ∧
      (num < INT_MAX →
        runGenerations num birth survival current next printed = some st ∧
        runGenerations num birth survival current next' printed = some st') := by
  refine ⟨?_, ?_, ?_⟩
  · intro r c
    refine ⟨ruleValue birth survival (current r c) (hitSum 1 current (r : Nat) (c : Nat))
      (hitSum 2 current (r : Nat) (c : Nat)) 0, fun next => ?_⟩
    rw [nextCell_eq, ruleValue_old_irrelevant _ _ _ _ _ (next r c) 0 (hvalid r c)]
  · intro next next'
    refine ⟨_, ComputeNextGrid_eq _ _ _ _, ?_⟩
    rw [ComputeNextGrid_eq, nextGrid_buffer_irrelevant current next' next birth survival hvalid]
  · intro num next next' printed
    refine ⟨_, _, generationPasses_eq _ _ _ _ _ _, generationPasses_eq _ _ _ _ _ _, ?_, ?_,
      fun hmax => ⟨runGenerations_eq _ hmax _ _ _ _ _, runGenerations_eq _ hmax _ _ _ _ _⟩⟩
    · cases num.toNat with
      | zero => rfl
      | succ k =>
        rw [stateAfter_succ_buffer_irrelevant birth survival current next next' printed
          hvalid k]
    · cases num.toNat with
      | zero => rfl
      | succ k =>
        rw [stateAfter_succ_buffer_irrelevant birth survival current next next' printed
          hvalid k]

/-- Witness of C12: the valid grid `tieGrid`. -/
theorem C12_total_and_pure_witness :
    validGrid tieGrid ∧
    (∀ (r : Fin RMAX) (c : Fin CMAX), ∃ v : Int, ∀ next : Grid,
      nextCell tieGrid (tableOf 2 3) (tableOf 2 3) r c next = some (setCell next r c v)) ∧
    (∀ next next' : Grid, ∃ out,
      ComputeNextGrid tieGrid next (tableOf 2 3) (tableOf 2 3) = some out ∧
      ComputeNextGrid tieGrid next' (tableOf 2 3) (tableOf 2 3) = some out) ∧
    ∀ (num : Int) (next next' : Grid) (printed : List Printed), ∃ st st',
      generationPasses num (tableOf 2 3) (tableOf 2 3) tieGrid next printed = some st ∧
      generationPasses num (tableOf 2 3) (tableOf 2 3) tieGrid next' printed = some st' ∧
      st.printed = st'.printed ∧ st.currentgrid = st'.currentgrid ∧
      (num < INT_MAX →
        runGenerations num (tableOf 2 3) (tableOf 2 3) tieGrid next printed = some st ∧
        runGenerations num (tableOf 2 3) (tableOf 2 3) tieGrid next' printed = some st') :=
  ⟨tieGrid_valid, C12_total_and_pure tieGrid (tableOf 2 3) (tableOf 2 3) tieGrid_valid⟩

/-! ## The rule slots -/

theorem ruleValue_slots (birth birth' survival survival' : Table) (cur n1 n2 old : Int)
    (h1 : birth 1 = birth' 1) (h2 : survival 1 = survival' 1)
    (h3 : survival 2 = survival' 2) :
    ruleValue birth survival cur n1 n2 old = ruleValue birth' survival' cur n1 n2 old := by
  unfold ruleValue
  rw [h1, h2, h3]

/-- C13 (only three slots matter). For every grid and buffer and any two pairs of rule
tables that agree on `birth[1]`, `survival[1]` and `survival[2]`, `ComputeNextGrid`
returns the same grid; the other slots may differ arbitrarily. -/
theorem C13_three_slots (current next : Grid) (birth birth' survival survival' : Table)
    (h1 : birth 1 = birth' 1) (h2 : survival 1 = survival' 1)
    (h3 : survival 2 = survival' 2) :
    ∃ out, ComputeNextGrid current next birth survival = some out ∧
      ComputeNextGrid current next birth' survival' = some out := by
  refine ⟨_, ComputeNextGrid_eq _ _ _ _, ?_⟩
  rw [ComputeNextGrid_eq]
  congr 1
  funext r c
  exact (ruleValue_slots birth birth' survival survival' _ _ _ _ h1 h2 h3).symm

/-- Witness of C13: tables that agree on the three slots and differ in all others. -/
theorem C13_three_slots_witness :
    tableOf 2 0 1 = noisyTableOf 2 7 1 ∧ tableOf 2 3 1 = noisyTableOf 2 3 1 ∧
    tableOf 2 3 2 = noisyTableOf 2 3 2 ∧
    ∃ out, ComputeNextGrid tieGrid ninesGrid (tableOf 2 0) (tableOf 2 3) = some out ∧
      ComputeNextGrid tieGrid ninesGrid (noisyTableOf 2 7) (noisyTableOf 2 3) = some out :=
  ⟨by decide, by decide, by decide,
    C13_three_slots tieGrid ninesGrid (tableOf 2 0) (noisyTableOf 2 7) (tableOf 2 3)
      (noisyTableOf 2 3) (by decide) (by decide) (by decide)⟩

/-- C14 (no read outside the grid). For every grid and all integers `row`, `col` both
scans return a count, that is no bounds-checked read fails; more precisely, for every
scanned position `(r, c)` whatsoever the loop body returns, and whenever its guard holds
the read of `grid[r][c]` is inside the grid and succeeds. -/
theorem C14_scan_in_bounds (grid : Grid) (row col : Int) :
    (∃ n, CountType1Neighbors grid row col = some n) ∧
    (∃ n, CountType2Neighbors grid row col = some n) ∧
    ∀ (v r c count : Int),
      (∃ n, countCell v grid row col r c count = some n) ∧
      (r ≥ 0 ∧ r < RMAX ∧ c ≥ 0 ∧ c < CMAX ∧ ¬(r = row ∧ c = col) →
        (0 ≤ r ∧ r < 10 ∧ 0 ≤ c ∧ c < 10) ∧ ∃ x, grid.read r c = some x) := by
  refine ⟨⟨_, countNeighbors_eq _ _ _ _⟩, ⟨_, countNeighbors_eq _ _ _ _⟩, ?_⟩
  intro v r c count
  refine ⟨⟨_, countCell_eq _ _ _ _ _ _ _⟩, ?_⟩
  intro h
  have hb : 0 ≤ r ∧ r < 10 ∧ 0 ≤ c ∧ c < 10 :=
    ⟨h.1, by simpa using h.2.1, h.2.2.1, by simpa using h.2.2.2.1⟩
  exact ⟨hb, _, Grid.read_inBounds grid r c hb⟩

/-- Witness of C14: the corner cell `(0, 0)` of `cornerGrid`, scanned position `(0, 1)`. -/
theorem C14_scan_in_bounds_witness :
    ((0 : Int) ≥ 0 ∧ (0 : Int) < RMAX ∧ (1 : Int) ≥ 0 ∧ (1 : Int) < CMAX ∧
      ¬((0 : Int) = 0 ∧ (1 : Int) = 0)) ∧
    (((0 : Int) ≤ 0 ∧ (0 : Int) < 10 ∧ (0 : Int) ≤ 1 ∧ (1 : Int) < 10) ∧
      ∃ x, cornerGrid.read 0 1 = some x) :=
  ⟨by decide, ((C14_scan_in_bounds cornerGrid 0 0).2.2 1 0 1 0).2 (by decide)⟩

/-- C15, evaluated on the code: '9' passes `isdigit`, its index `'9' - '0'` is 9, the
write `reqs[9] = 1` is outside the 9-entry table, and so decoding "B9" leaves the table. -/
theorem C15_digit_nine_out_of_bounds :
    isdigit '9' = true ∧ ((('9' : Char).toNat : Int) - 48 = 9) ∧
    (Table.write zeroTable 9 1).isNone = true ∧
    (ParseRequirementsString ['B', '9'] zeroTable).isNone = true := by
  decide

/-! ## Decoded tables hold flags -/

theorem hit_nonneg (v : Int) (grid : Grid) (row col r c : Int) :
    0 ≤ hit v grid row col r c := by
  unfold hit
  split_ifs <;> decide

theorem hitSum_nonneg (v : Int) (grid : Grid) (row col : Int) :
    0 ≤ hitSum v grid row col := by
  unfold hitSum
  have h := hit_nonneg v grid row col
  linarith [h (row - 1) (col - 1), h (row - 1) col, h (row - 1) (col + 1), h row (col - 1),
    h row col, h row (col + 1), h (row + 1) (col - 1), h (row + 1) col,
    h (row + 1) (col + 1)]

/-- A decoded table holds 0 or 1 in every slot. -/
theorem parse_flag (requirements : List Char)
    (h : ∀ ch ∈ requirements.drop 1, isdigit ch = true → ch.toNat ≤ 56) :
    ∃ reqs, ParseRequirementsString requirements zeroTable = some reqs ∧
      ∀ k, reqs k = 0 ∨ reqs k = 1 := by
  refine ⟨_, parseLoop_eq _ h zeroTable, fun k => ?_⟩
  by_cases hk : digitChar k ∈ requirements.drop 1
  · right; exact if_pos hk
  · left; exact (if_neg hk).trans rfl

/-- With a birth flag of 0 or 1 an Empty cell is born to the strictly larger count. -/
theorem ruleValue_empty_flag (birth survival : Table) (n1 n2 old : Int)
    (hb : birth 1 = 0 ∨ birth 1 = 1) (h1 : 0 ≤ n1) (h2 : 0 ≤ n2) :
    ruleValue birth survival 0 n1 n2 old = if n1 > n2 then 1 else if n2 > n1 then 2 else 0 := by
  unfold ruleValue
  rcases hb with hb | hb <;> rw [hb] <;> split_ifs <;> first | rfl | omega

theorem ruleValue_birth_flag (birth birth' survival : Table) (cur n1 n2 old : Int)
    (hb : birth 1 = 0 ∨ birth 1 = 1) (hb' : birth' 1 = 0 ∨ birth' 1 = 1)
    (h1 : 0 ≤ n1) (h2 : 0 ≤ n2) :
    ruleValue birth survival cur n1 n2 old = ruleValue birth' survival cur n1 n2 old := by
  by_cases hc : cur = 0
  · subst hc
    rw [ruleValue_empty_flag birth survival n1 n2 old hb h1 h2,
      ruleValue_empty_flag birth' survival n1 n2 old hb' h1 h2]
  · unfold ruleValue
    rw [if_neg hc, if_neg hc]

/-- C16 (the birth string has no effect). For any two birth strings without a digit above
'8' behind the tag, both decodings of the zero table return, the decoded `birth[1]` is 0
or 1 in each, and for every grid, buffer and survival table `ComputeNextGrid` returns the
same grid under both; in that grid every Empty cell with more Type-1 than Type-2
neighbours is 1 and every Empty cell with more Type-2 than Type-1 neighbours is 2. -/
theorem C16_birth_string_inert (b1 b2 : List Char)
    (h1 : ∀ ch ∈ b1.drop 1, isdigit ch = true → ch.toNat ≤ 56)
    (h2 : ∀ ch ∈ b2.drop 1, isdigit ch = true → ch.toNat ≤ 56) :
    ∃ birth1 birth2,
      ParseRequirementsString b1 zeroTable = some birth1 ∧
      ParseRequirementsString b2 zeroTable = some birth2 ∧
      (birth1 1 = 0 ∨ birth1 1 = 1) ∧ (birth2 1 = 0 ∨ birth2 1 = 1) ∧
      ∀ (current next : Grid) (survival : Table), ∃ out,
        ComputeNextGrid current next birth1 survival = some out ∧
        ComputeNextGrid current next birth2 survival = some out ∧
        ∀ (r : Fin RMAX) (c : Fin CMAX) (countA countB : Int), current r c = 0 →
          CountType1Neighbors current (r : Nat) (c : Nat) = some countA →
          CountType2Neighbors current (r : Nat) (c : Nat) = some countB →
          (countA > countB → out r c = 1) ∧ (countB > countA → out r c = 2) := by
  obtain ⟨birth1, hp1, hf1⟩ := parse_flag b1 h1
  obtain ⟨birth2, hp2, hf2⟩ := parse_flag b2 h2
  refine ⟨birth1, birth2, hp1, hp2, hf1 1, hf2 1, ?_⟩
  intro current next survival
  refine ⟨_, ComputeNextGrid_eq _ _ _ _, ?_, ?_⟩
  · rw [ComputeNextGrid_eq]
    congr 1
    funext r c
    exact ruleValue_birth_flag birth2 birth1 survival _ _ _ _ (hf2 1) (hf1 1)
      (hitSum_nonneg _ _ _ _) (hitSum_nonneg _ _ _ _)
  · intro r c countA countB hempty hA hB
    unfold CountType1Neighbors at hA
    unfold CountType2Neighbors at hB
    rw [countNeighbors_eq] at hA hB
    have eA := Option.some.inj hA
    have eB := Option.some.inj hB
    have hv : nextGrid current next birth1 survival r c
        = if countA > countB then 1 else if countB > countA then 2 else 0 := by
      unfold nextGrid
      rw [hempty, eA, eB]
      exact ruleValue_empty_flag birth1 survival countA countB _ (hf1 1)
        (eA ▸ hitSum_nonneg _ _ _ _) (eB ▸ hitSum_nonneg _ _ _ _)
    rw [hv]
    constructor
    · intro h; rw [if_pos h]
    · intro h
      have h' : ¬(countA > countB) := by omega
      rw [if_neg h', if_pos h]

/-- Witness of C16: the birth strings "B3" and "B1". -/
theorem C16_birth_string_inert_witness :
    (∀ ch ∈ (['B', '3'] : List Char).drop 1, isdigit ch = true → ch.toNat ≤ 56) ∧
    (∀ ch ∈ (['B', '1'] : List Char).drop 1, isdigit ch = true → ch.toNat ≤ 56) ∧
    ∃ birth1 birth2,
      ParseRequirementsString ['B', '3'] zeroTable = some birth1 ∧
      ParseRequirementsString ['B', '1'] zeroTable = some birth2 ∧
      (birth1 1 = 0 ∨ birth1 1 = 1) ∧ (birth2 1 = 0 ∨ birth2 1 = 1) ∧
      ∀ (current next : Grid) (survival : Table), ∃ out,
        ComputeNextGrid current next birth1 survival = some out ∧
        ComputeNextGrid current next birth2 survival = some out ∧
        ∀ (r : Fin RMAX) (c : Fin CMAX) (countA countB : Int), current r c = 0 →
          CountType1Neighbors current (r : Nat) (c : Nat) = some countA →
          CountType2Neighbors current (r : Nat) (c : Nat) = some countB →
          (countA > countB → out r c = 1) ∧ (countB > countA → out r c = 2) :=
  ⟨by decide, by decide, C16_birth_string_inert ['B', '3'] ['B', '1'] (by decide) (by decide)⟩

/-- C17 (decoded survival bounds are flags). For every survival string without a digit
above '8' behind the tag the decoding of the zero table returns a table whose slots 1 and
2 hold 0 or 1, and under it, for every grid, buffer and birth table, every cell of
species 1 or 2 with two or more neighbours of its own species is Empty in the grid
returned by `ComputeNextGrid`. -/
theorem C17_survival_flags (sstring : List Char)
    (hdigits : ∀ ch ∈ sstring.drop 1, isdigit ch = true → ch.toNat ≤ 56) :
    ∃ survival,
      ParseRequirementsString sstring zeroTable = some survival ∧
      (survival 1 = 0 ∨ survival 1 = 1) ∧ (survival 2 = 0 ∨ survival 2 = 1) ∧
      ∀ (current next : Grid) (birth : Table) (r : Fin RMAX) (c : Fin CMAX) (s n : Int),
        s = 1 ∨ s = 2 → current r c = s →
        (if s = 1 then CountType1Neighbors current (r : Nat) (c : Nat)
          else CountType2Neighbors current (r : Nat) (c : Nat)) = some n →
        2 ≤ n →
        ∃ out, ComputeNextGrid current next birth survival = some out ∧ out r c = 0 := by
  obtain ⟨survival, hp, hf⟩ := parse_flag sstring hdigits
  refine ⟨survival, hp, hf 1, hf 2, ?_⟩
  intro current next birth r c s n hs hcell hn h2
  refine ⟨_, ComputeNextGrid_eq _ _ _ _, ?_⟩
  have hs2 : survival 2 ≤ 1 := by rcases hf 2 with h | h <;> omega
  rcases hs with rfl | rfl
  · simp only [if_true, CountType1Neighbors] at hn
    rw [countNeighbors_eq] at hn
    have e := Option.some.inj hn
    unfold nextGrid ruleValue
    rw [hcell, e]
    have h10 : ¬((1 : Int) = 0) := by decide
    rw [if_neg h10, if_pos rfl, if_pos (Or.inr (by omega))]
  · have h21 : ¬((2 : Int) = 1) := by decide
    simp only [h21, if_false, CountType2Neighbors] at hn
    rw [countNeighbors_eq] at hn
    have e := Option.some.inj hn
    unfold nextGrid ruleValue
    rw [hcell, e]
    have h20 : ¬((2 : Int) = 0) := by decide
    rw [if_neg h20, if_neg h21, if_pos rfl, if_pos (Or.inr (by omega))]

/-- Witness of C17: under "S23" the Type-1 cell `(5, 5)` of `pairGrid`, which has exactly
two Type-1 neighbours, dies. -/
theorem C17_survival_flags_witness :
    (∀ ch ∈ (['S', '2', '3'] : List Char).drop 1, isdigit ch = true → ch.toNat ≤ 56) ∧
    CountType1Neighbors pairGrid 5 5 = some 2 ∧
    (ParseRequirementsString ['S', '2', '3'] zeroTable).bind (fun survival =>
      (ComputeNextGrid pairGrid ninesGrid zeroTable survival).map (fun out => out 5 5))
      = some 0 ∧
    ∃ survival,
      ParseRequirementsString ['S', '2', '3'] zeroTable = some survival ∧
      (survival 1 = 0 ∨ survival 1 = 1) ∧ (survival 2 = 0 ∨ survival 2 = 1) ∧
      ∀ (current next : Grid) (birth : Table) (r : Fin RMAX) (c : Fin CMAX) (s n : Int),
        s = 1 ∨ s = 2 → current r c = s →
        (if s = 1 then CountType1Neighbors current (r : Nat) (c : Nat)
          else CountType2Neighbors current (r : Nat) (c : Nat)) = some n →
        2 ≤ n →
        ∃ out, ComputeNextGrid current next birth survival = some out ∧ out r c = 0 :=
  ⟨by decide, by decide, by decide, C17_survival_flags ['S', '2', '3'] (by decide)⟩

/-! ## Species symmetry -/

theorem swapCell_eq_one (x : Int) : swapCell x = 1 ↔ x = 2 := by
  unfold swapCell
  split_ifs <;> omega

theorem swapCell_eq_two (x : Int) : swapCell x = 2 ↔ x = 1 := by
  unfold swapCell
  split_ifs <;> omega

theorem hit_swapGrid (v w : Int) (hvw : ∀ x, swapCell x = v ↔ x = w) (grid : Grid)
    (row col r c : Int) :
    hit v (swapGrid grid) row col r c = hit w grid row col r c := by
  unfold hit
  by_cases hb : 0 ≤ r ∧ r < 10 ∧ 0 ≤ c ∧ c < 10
  · have e : ((swapGrid grid).read r c = some v) ↔ (grid.read r c = some w) := by
      rw [Grid.read_inBounds _ r c hb, Grid.read_inBounds _ r c hb]
      unfold swapGrid
      constructor
      · intro h; exact congrArg some ((hvw _).1 (Option.some.inj h))
      · intro h; exact congrArg some ((hvw _).2 (Option.some.inj h))
    simp only [e]
  · rw [if_neg (fun h => hb ⟨h.1, h.2.1, h.2.2.1, h.2.2.2.1⟩),
      if_neg (fun h => hb ⟨h.1, h.2.1, h.2.2.1, h.2.2.2.1⟩)]

theorem hitSum_swapGrid (v w : Int) (hvw : ∀ x, swapCell x = v ↔ x = w) (grid : Grid)
    (row col : Int) :
    hitSum v (swapGrid grid) row col = hitSum w grid row col := by
  unfold hitSum
  simp only [hit_swapGrid v w hvw]

theorem ruleValue_swap (birth survival : Table) (cur n1 n2 old old' : Int)
    (h : cur = 0 ∨ cur = 1 ∨ cur = 2) :
    ruleValue birth survival (swapCell cur) n2 n1 old'
      = swapCell (ruleValue birth survival cur n1 n2 old) := by
  have s0 : swapCell 0 = 0 := by decide
  have s1 : swapCell 1 = 2 := by decide
  have s2 : swapCell 2 = 1 := by decide
  rcases h with h | h | h <;> subst h
  · rw [s0]
    unfold ruleValue
    split_ifs <;> omega
  · rw [s1]
    unfold ruleValue
    split_ifs <;> omega
  · rw [s2]
    unfold ruleValue
    split_ifs <;> omega

/-- C18 (species symmetry). For every grid whose cells are all 0, 1 or 2, all rule tables
and any prior contents of the output buffer, `ComputeNextGrid` returns on the grid and on
the grid with the species exchanged, and the second result is the first with the species
exchanged. -/
theorem C18_species_symmetry (current : Grid) (birth survival : Table)
    (hvalid : validGrid current) (next next' : Grid) :
    ∃ out, ComputeNextGrid current next birth survival = some out ∧
      ComputeNextGrid (swapGrid current) next' birth survival = some (swapGrid out) := by
  refine ⟨_, ComputeNextGrid_eq _ _ _ _, ?_⟩
  rw [ComputeNextGrid_eq]
  congr 1
  funext r c
  unfold nextGrid
  rw [hitSum_swapGrid 1 2 swapCell_eq_one, hitSum_swapGrid 2 1 swapCell_eq_two]
  exact ruleValue_swap birth survival (current r c) _ _ (next r c) (next' r c) (hvalid r c)

/-- Witness of C18: the valid grid `tieGrid` with two different buffers. -/
theorem C18_species_symmetry_witness :
    validGrid tieGrid ∧
    ∃ out, ComputeNextGrid tieGrid emptyGrid (tableOf 2 3) (tableOf 2 3) = some out ∧
      ComputeNextGrid (swapGrid tieGrid) ninesGrid (tableOf 2 3) (tableOf 2 3)
        = some (swapGrid out) :=
  ⟨tieGrid_valid,
    C18_species_symmetry tieGrid (tableOf 2 3) (tableOf 2 3) tieGrid_valid emptyGrid
      ninesGrid⟩

/-! ## Bounds on the counts -/

theorem hit_pair_le_one (grid : Grid) (row col r c : Int) :
    hit 1 grid row col r c + hit 2 grid row col r c ≤ 1 := by
  unfold hit
  split_ifs with h1 h2
  · exfalso
    have e1 := h1.2.2.2.2.2
    rw [h2.2.2.2.2.2] at e1
    exact absurd (Option.some.inj e1) (by decide)
  · decide
  · decide
  · decide

theorem hit_pair_eq_zero (grid : Grid) (row col r c : Int)
    (h : r < 0 ∨ 10 ≤ r ∨ c < 0 ∨ 10 ≤ c ∨ (r = row ∧ c = col)) :
    hit 1 grid row col r c + hit 2 grid row col r c = 0 := by
  have hn : ∀ v, hit v grid row col r c = 0 := by
    intro v
    unfold hit
    rw [if_neg]
    rintro ⟨h1, h2, h3, h4, h5, _⟩
    rcases h with h | h | h | h | h
    · omega
    · omega
    · omega
    · omega
    · exact h5 h
  rw [hn 1, hn 2]
  rfl

theorem hitSum_pair (grid : Grid) (row col : Int) :
    hitSum 1 grid row col + hitSum 2 grid row col
      = (hit 1 grid row col (row - 1) (col - 1) + hit 2 grid row col (row - 1) (col - 1))
        + (hit 1 grid row col (row - 1) col + hit 2 grid row col (row - 1) col)
        + (hit 1 grid row col (row - 1) (col + 1) + hit 2 grid row col (row - 1) (col + 1))
        + (hit 1 grid row col row (col - 1) + hit 2 grid row col row (col - 1))
        + (hit 1 grid row col row col + hit 2 grid row col row col)
        + (hit 1 grid row col row (col + 1) + hit 2 grid row col row (col + 1))
        + (hit 1 grid row col (row + 1) (col - 1) + hit 2 grid row col (row + 1) (col - 1))
        + (hit 1 grid row col (row + 1) col + hit 2 grid row col (row + 1) col)
        + (hit 1 grid row col (row + 1) (col + 1) + hit 2 grid row col (row + 1) (col + 1)) := by
  unfold hitSum
  ring

/-- C19 (bounded counts). For every grid and every cell of the grid both scans return,
each count is at least 0 and the two counts add up to at most 8; they add up to at most 3
at the four corner cells and to at most 5 at every border cell. -/
theorem C19_count_bounds (grid : Grid) (row : Fin RMAX) (col : Fin CMAX) :
    ∃ n1 n2,
      CountType1Neighbors grid (row : Nat) (col : Nat) = some n1 ∧
      CountType2Neighbors grid (row : Nat) (col : Nat) = some n2 ∧
      0 ≤ n1 ∧ 0 ≤ n2 ∧ n1 + n2 ≤ 8 ∧
      ((((row : Nat) = 0 ∨ (row : Nat) = 9) ∧ ((col : Nat) = 0 ∨ (col : Nat) = 9)) →
        n1 + n2 ≤ 3) ∧
      (((row : Nat) = 0 ∨ (row : Nat) = 9 ∨ (col : Nat) = 0 ∨ (col : Nat) = 9) →
        n1 + n2 ≤ 5) := by
  refine ⟨_, _, countNeighbors_eq _ _ _ _, countNeighbors_eq _ _ _ _, hitSum_nonneg _ _ _ _,
    hitSum_nonneg _ _ _ _, ?_⟩
  rw [hitSum_pair]
  have le := hit_pair_le_one grid (row : Nat) (col : Nat)
  have self := hit_pair_eq_zero grid (row : Nat) (col : Nat) (row : Nat) (col : Nat)
    (Or.inr (Or.inr (Or.inr (Or.inr ⟨rfl, rfl⟩))))
  have up : (row : Nat) = 0 → ∀ c, hit 1 grid (row : Nat) (col : Nat) (((row : Nat) : Int) - 1) c
      + hit 2 grid (row : Nat) (col : Nat) (((row : Nat) : Int) - 1) c = 0 :=
    fun h c => hit_pair_eq_zero _ _ _ _ _ (Or.inl (by omega))
  have down : (row : Nat) = 9 → ∀ c, hit 1 grid (row : Nat) (col : Nat) (((row : Nat) : Int) + 1) c
      + hit 2 grid (row : Nat) (col : Nat) (((row : Nat) : Int) + 1) c = 0 :=
    fun h c => hit_pair_eq_zero _ _ _ _ _ (Or.inr (Or.inl (by omega)))
  have left : (col : Nat) = 0 → ∀ r, hit 1 grid (row : Nat) (col : Nat) r (((col : Nat) : Int) - 1)
      + hit 2 grid (row : Nat) (col : Nat) r (((col : Nat) : Int) - 1) = 0 :=
    fun h r => hit_pair_eq_zero _ _ _ _ _ (Or.inr (Or.inr (Or.inl (by omega))))
  have right : (col : Nat) = 9 → ∀ r, hit 1 grid (row : Nat) (col : Nat) r (((col : Nat) : Int) + 1)
      + hit 2 grid (row : Nat) (col : Nat) r (((col : Nat) : Int) + 1) = 0 :=
    fun h r => hit_pair_eq_zero _ _ _ _ _ (Or.inr (Or.inr (Or.inr (Or.inl (by omega)))))
  have l1 := le (((row : Nat) : Int) - 1) (((col : Nat) : Int) - 1)
  have l2 := le (((row : Nat) : Int) - 1) ((col : Nat) : Int)
  have l3 := le (((row : Nat) : Int) - 1) (((col : Nat) : Int) + 1)
  have l4 := le ((row : Nat) : Int) (((col : Nat) : Int) - 1)
  have l6 := le ((row : Nat) : Int) (((col : Nat) : Int) + 1)
  have l7 := le (((row : Nat) : Int) + 1) (((col : Nat) : Int) - 1)
  have l8 := le (((row : Nat) : Int) + 1) ((col : Nat) : Int)
  have l9 := le (((row : Nat) : Int) + 1) (((col : Nat) : Int) + 1)
  refine ⟨by linarith, ?_, ?_⟩
  · rintro ⟨hr | hr, hc | hc⟩
    · have u := up hr; have l := left hc
      linarith [u (((col : Nat) : Int) - 1), u (col : Nat), u (((col : Nat) : Int) + 1),
        l (row : Nat), l (((row : Nat) : Int) + 1)]
    · have u := up hr; have l := right hc
      linarith [u (((col : Nat) : Int) - 1), u (col : Nat), u (((col : Nat) : Int) + 1),
        l (row : Nat), l (((row : Nat) : Int) + 1)]
    · have u := down hr; have l := left hc
      linarith [u (((col : Nat) : Int) - 1), u (col : Nat), u (((col : Nat) : Int) + 1),
        l (row : Nat), l (((row : Nat) : Int) - 1)]
    · have u := down hr; have l := right hc
      linarith [u (((col : Nat) : Int) - 1), u (col : Nat), u (((col : Nat) : Int) + 1),
        l (row : Nat), l (((row : Nat) : Int) - 1)]
  · rintro (hr | hr | hc | hc)
    · have u := up hr
      linarith [u (((col : Nat) : Int) - 1), u (col : Nat), u (((col : Nat) : Int) + 1)]
    · have u := down hr
      linarith [u (((col : Nat) : Int) - 1), u (col : Nat), u (((col : Nat) : Int) + 1)]
    · have l := left hc
      linarith [l (((row : Nat) : Int) - 1), l (row : Nat), l (((row : Nat) : Int) + 1)]
    · have l := right hc
      linarith [l (((row : Nat) : Int) - 1), l (row : Nat), l (((row : Nat) : Int) + 1)]

/-- Witness of C19: the corner cell `(0, 0)` of `tieGrid`. -/
theorem C19_count_bounds_witness :
    ((((0 : Fin RMAX) : Nat) = 0 ∨ ((0 : Fin RMAX) : Nat) = 9) ∧
      (((0 : Fin CMAX) : Nat) = 0 ∨ ((0 : Fin CMAX) : Nat) = 9)) ∧
    ∃ n1 n2,
      CountType1Neighbors tieGrid ((0 : Fin RMAX) : Nat) ((0 : Fin CMAX) : Nat) = some n1 ∧
      CountType2Neighbors tieGrid ((0 : Fin RMAX) : Nat) ((0 : Fin CMAX) : Nat) = some n2 ∧
      n1 + n2 ≤ 3 :=
  ⟨by decide,
    let ⟨n1, n2, h1, h2, _, _, _, h3, _⟩ := C19_count_bounds tieGrid 0 0
    ⟨n1, n2, h1, h2, h3 (by decide)⟩⟩

/-! ## Cells holding an unrecognised value -/

/-- Replacing by Empty a cell whose content is not `v` changes no contribution to the
count of a species value `v`. -/
theorem hit_setCell_empty (v : Int) (hv : v ≠ 0) (grid : Grid) (r0 : Fin RMAX)
    (c0 : Fin CMAX) (hcell : grid r0 c0 ≠ v) (row col r c : Int) :
    hit v (setCell grid r0 c0 0) row col r c = hit v grid row col r c := by
  by_cases h : r = ((r0 : Nat) : Int) ∧ c = ((c0 : Nat) : Int)
  · obtain ⟨hr, hc⟩ := h
    subst hr
    subst hc
    unfold hit
    rw [Grid.read_fin, Grid.read_fin]
    have e1 : ¬(some (setCell grid r0 c0 0 r0 c0) = some v) := by
      intro h
      apply hv
      have h' := Option.some.inj h
      unfold setCell at h'
      rw [if_pos ⟨rfl, rfl⟩] at h'
      exact h'.symm
    have e2 : ¬(some (grid r0 c0) = some v) := fun h => hcell (Option.some.inj h)
    rw [if_neg (fun h => e1 h.2.2.2.2.2), if_neg (fun h => e2 h.2.2.2.2.2)]
  · unfold hit
    rw [Grid.read_setCell_ne grid r0 c0 0 r c h]

theorem hitSum_setCell_empty (v : Int) (hv : v ≠ 0) (grid : Grid) (r0 : Fin RMAX)
    (c0 : Fin CMAX) (hcell : grid r0 c0 ≠ v) (row col : Int) :
    hitSum v (setCell grid r0 c0 0) row col = hitSum v grid row col := by
  unfold hitSum
  simp only [hit_setCell_empty v hv grid r0 c0 hcell]

/-- C20 (unrecognised cells are skipped). For every grid, rule tables and cell `(r, c)`
whose content is none of 0, 1, 2: the loop body of `ComputeNextGrid` for that cell leaves
the buffer as it is; in the grid returned by `ComputeNextGrid` the cell holds the value
the buffer held before the call; and around every position both scans return the same
count as on the grid in which the cell is Empty. -/
theorem C20_unrecognised_cell_skipped (current next : Grid) (birth survival : Table)
    (r : Fin RMAX) (c : Fin CMAX)
    (hjunk : current r c ≠ 0 ∧ current r c ≠ 1 ∧ current r c ≠ 2) :
    (∀ buffer : Grid, nextCell current birth survival r c buffer = some buffer) ∧
    (∃ out, ComputeNextGrid current next birth survival = some out ∧ out r c = next r c) ∧
    ∀ row col : Int,
      CountType1Neighbors current row col
        = CountType1Neighbors (setCell current r c 0) row col ∧
      CountType2Neighbors current row col
        = CountType2Neighbors (setCell current r c 0) row col := by
  obtain ⟨h0, h1, h2⟩ := hjunk
  have hrule : ∀ n1 n2 old, ruleValue birth survival (current r c) n1 n2 old = old := by
    intro n1 n2 old
    unfold ruleValue
    rw [if_neg h0, if_neg h1, if_neg h2]
  refine ⟨?_, ⟨_, ComputeNextGrid_eq _ _ _ _, ?_⟩, ?_⟩
  · intro buffer
    rw [nextCell_eq, hrule, setCell_same]
  · exact hrule _ _ _
  · intro row col
    unfold CountType1Neighbors CountType2Neighbors
    rw [countNeighbors_eq, countNeighbors_eq, countNeighbors_eq, countNeighbors_eq,
      hitSum_setCell_empty 1 (by decide) current r c h1,
      hitSum_setCell_empty 2 (by decide) current r c h2]
    exact ⟨rfl, rfl⟩

/-- Witness of C20: the cell `(5, 5)` of `junkGrid`, which holds 7, with a buffer holding 9
in every cell. -/
theorem C20_unrecognised_cell_skipped_witness :
    (junkGrid 5 5 ≠ 0 ∧ junkGrid 5 5 ≠ 1 ∧ junkGrid 5 5 ≠ 2) ∧
    (∀ buffer : Grid, nextCell junkGrid (tableOf 2 3) (tableOf 2 3) 5 5 buffer = some buffer) ∧
    (∃ out, ComputeNextGrid junkGrid ninesGrid (tableOf 2 3) (tableOf 2 3) = some out ∧
      out 5 5 = ninesGrid 5 5) ∧
    ∀ row col : Int,
      CountType1Neighbors junkGrid row col
        = CountType1Neighbors (setCell junkGrid 5 5 0) row col ∧
      CountType2Neighbors junkGrid row col
        = CountType2Neighbors (setCell junkGrid 5 5 0) row col :=
  ⟨by decide,
    C20_unrecognised_cell_skipped junkGrid ninesGrid (tableOf 2 3) (tableOf 2 3) 5 5
      (by decide)⟩

end GameOfLife
